import Mathlib

/-!
# ncmpc queue page: selection re-anchoring, change events, row moves, cursor timer

A shallow embedding of `src/screen_queue.cxx` (class `QueuePage`) and of the
inline methods of `src/BasicMarquee.hxx`.  The page
state is an explicit record, every method is a function on it.  `unsigned`
values are natural numbers reduced modulo `2 ^ 32` wherever the C++ arithmetic
can wrap, `int` values are integers, and the two C++ conversions between them
are `int_of_unsigned` and `unsigned_of_int`.

`ListWindow`, `MpdQueue`, `ListPage` and `ScreenManager` are declared in
headers that are not part of the sources at hand; what the page needs from
them is modelled from the specification (sections 4.2 to 4.4) and marked as
such, or is a parameter where the specification does not describe it.
-/

namespace Ncmpc

/-! ## Machine integers -/

/-- Number of values of an `unsigned`: two to the thirty-second. -/
def UINT_SIZE : Nat := 4294967296

/-- Smallest `unsigned` value that does not fit an `int`: two to the thirty-first. -/
def INT_LIMIT : Nat := 2147483648

/-- Conversion `(int)u` of an `unsigned` value. -/
def int_of_unsigned (u : Nat) : Int :=
  if u % UINT_SIZE < INT_LIMIT then ((u % UINT_SIZE : Nat) : Int)
  else ((u % UINT_SIZE : Nat) : Int) - (UINT_SIZE : Int)

/-- Conversion `(unsigned)i` of an `int` value. -/
def unsigned_of_int (i : Int) : Nat :=
  (i % (UINT_SIZE : Int)).toNat

/-- The C++ `--x` on an `unsigned`. -/
def unsigned_dec (x : Nat) : Nat := (x + (UINT_SIZE - 1)) % UINT_SIZE

/-- The C++ `++x` on an `unsigned`. -/
def unsigned_inc (x : Nat) : Nat := (x + 1) % UINT_SIZE

/-! ## The list window (`lw`) -/

/-- The fields of `ListWindow` that `QueuePage` reads or writes: `start`,
`size.height`, `length`, `selected`, `range_selection`, `range_base`,
`hide_cursor`. -/
structure ListWindow where
  start : Nat
  height : Nat
  length : Nat
  selected : Nat
  range_selection : Bool
  range_base : Nat
  hide_cursor : Bool
deriving DecidableEq

/-- The pair `ListWindowRange` returned by `ListWindow::GetRange`. -/
structure ListWindowRange where
  start_index : Nat
  end_index : Nat
deriving DecidableEq

/-- Modelled from the spec: `ListWindowRange::empty` is declared outside the
sources; a half-open span is empty when its end does not exceed its start. -/
def ListWindowRange.empty (r : ListWindowRange) : Bool :=
  decide (r.end_index ≤ r.start_index)

namespace ListWindow

/-- Modelled from the spec: `ListWindow::SetLength` is not among the sources.
Spec 4.2: updates the logical item count; clamps the cursor into `[0, n)` if
it now exceeds bounds (cursor `0` on an empty list); a range selection whose
anchor is now out of bounds collapses to a single cursor. -/
def SetLength (lw : ListWindow) (n : Nat) : ListWindow :=
  { lw with
    length := n
    selected := if n = 0 then 0 else if lw.selected < n then lw.selected else n - 1
    range_selection := lw.range_selection && decide (lw.range_base < n) }

/-- Modelled from the spec: `ListWindow::ScrollTo` is not among the sources.
Spec 4.2: scrolls the window just enough to make row `i` visible without
otherwise moving the cursor. -/
def ScrollTo (lw : ListWindow) (i : Nat) : ListWindow :=
  if i < lw.start then { lw with start := i }
  else if lw.start + lw.height ≤ i then { lw with start := i + 1 - lw.height }
  else lw

/-- Modelled from the spec: `ListWindow::SetCursor` is not among the sources.
Spec 4.2: moves the cursor to `i` (clamped to the valid range), then scrolls
the window minimally so that the cursor is visible, keeping the previous
window start if the target is already visible. -/
def SetCursor (lw : ListWindow) (i : Nat) : ListWindow :=
  let sel := if lw.length = 0 then 0 else if i < lw.length then i else lw.length - 1
  ScrollTo { lw with selected := sel } sel

/-- Modelled from the spec: `ListWindow::Center` is not among the sources.
Spec 4.2: scrolls so that `i` is at or near the visible middle row,
independent of the cursor; the window never runs past the end of the list. -/
def Center (lw : ListWindow) (i : Nat) : ListWindow :=
  let s := i - lw.height / 2
  { lw with start := if lw.length < s + lw.height then lw.length - lw.height else s }

/-- Modelled from the spec: `ListWindow::GetRange` is not among the sources.
Spec 4.2: the half-open index span of the current selection with anchor and
cursor put in order; a single cursor yields a one-element range; an empty
list yields an empty range. -/
def GetRange (lw : ListWindow) : ListWindowRange :=
  if lw.length = 0 then { start_index := 0, end_index := 0 }
  else if lw.range_selection then
    if lw.range_base < lw.selected then
      { start_index := lw.range_base, end_index := lw.selected + 1 }
    else
      { start_index := lw.selected, end_index := lw.range_base + 1 }
  else { start_index := lw.selected, end_index := lw.selected + 1 }

end ListWindow

/-! ## The queue snapshot and the player status -/

/-- The queue snapshot `MpdQueue`, as the sequence of the song ids
(`mpd_song_get_id`, an `unsigned`) in queue order. -/
abbrev MpdQueue := List Nat

/-- Modelled from the spec: `MpdQueue::FindId` is not among the sources.
Spec 4.3 step 2: search the snapshot for an item whose identity matches,
exact match only; the position of the first match, or `-1`. -/
def MpdQueue.FindId (playlist : MpdQueue) (id : Nat) : Int :=
  if playlist.indexOf id < playlist.length then (playlist.indexOf id : Int) else -1

/-- The values of `enum mpd_state` (libmpdclient). -/
inductive mpd_state where
  | MPD_STATE_UNKNOWN
  | MPD_STATE_STOP
  | MPD_STATE_PLAY
  | MPD_STATE_PAUSE
deriving DecidableEq

/-- What the page reads of a `struct mpd_status`: `mpd_status_get_state`,
`mpd_status_get_song_pos`, `mpd_status_get_song_id`. -/
structure mpd_status where
  state : mpd_state
  song_pos : Int
  song_id : Int
deriving DecidableEq

/-- The run-time options the page consults (`options.hide_cursor`,
`options.auto_center`). -/
structure Options where
  hide_cursor : Int
  auto_center : Bool
deriving DecidableEq

/-! ## The page -/

/-- The data members of `QueuePage` (lines 55-70) together with the `dirty`
flag of its base class `Page`.  The member `playlist` is a pointer to the
snapshot owned by the client; the snapshot it points to is passed to the
methods that dereference it. -/
structure QueuePage where
  lw : ListWindow
  current_song_id : Int
  selected_song_id : Int
  timer_hide_cursor_id : Nat
  last_connection_id : Nat
  playing : Bool
  dirty : Bool
deriving DecidableEq

namespace QueuePage

/-- Modelled from the spec: `Page::SetDirty` is not among the sources; it
marks the view dirty so that it is painted at the next idle point. -/
def SetDirty (q : QueuePage) : QueuePage := { q with dirty := true }

/-- The method `QueuePage::GetSelectedSong` (lines 122-129), returning the id
of the song instead of a pointer to it. -/
def GetSelectedSong (playlist : MpdQueue) (q : QueuePage) : Option Nat :=
  if !q.lw.range_selection && decide (q.lw.selected < playlist.length) then
    playlist[q.lw.selected]?
  else none

/-- The method `QueuePage::SaveSelection` (lines 131-137). -/
def SaveSelection (playlist : MpdQueue) (q : QueuePage) : QueuePage :=
  { q with selected_song_id :=
      match GetSelectedSong playlist q with
      | some id => int_of_unsigned id
      | none => -1 }

/-- The method `QueuePage::RestoreSelection` (lines 139-159). -/
def RestoreSelection (playlist : MpdQueue) (q : QueuePage) : QueuePage :=
  let q1 := { q with lw := q.lw.SetLength playlist.length }
  if q1.selected_song_id < 0 then
    q1
  else
    let stillValid :=
      match GetSelectedSong playlist q1 with
      | some id => decide (id = unsigned_of_int q1.selected_song_id)
      | none => false
    if stillValid then
      q1
    else
      let pos := MpdQueue.FindId playlist (unsigned_of_int q1.selected_song_id)
      let q2 := if 0 ≤ pos then { q1 with lw := q1.lw.SetCursor pos.toNat } else q1
      SaveSelection playlist q2

/-- The method `QueuePage::CenterPlayingItem` (lines 175-198).  A null
`status` is `none`.  `ListWindow::FetchCursor`, called at line 197 under the
comment "make sure the cursor is in the window", is neither among the sources
nor described by the specification: it is the parameter `FetchCursor`. -/
def CenterPlayingItem (FetchCursor : ListWindow → ListWindow)
    (status : Option mpd_status) (center_cursor : Bool) (q : QueuePage) : QueuePage :=
  match status with
  | none => q
  | some st =>
    if st.state ≠ mpd_state.MPD_STATE_PLAY ∧ st.state ≠ mpd_state.MPD_STATE_PAUSE then q
    else
      let idx := st.song_pos
      if idx < 0 then q
      else
        let lw1 := q.lw.Center idx.toNat
        if center_cursor then { q with lw := lw1.SetCursor idx.toNat }
        else { q with lw := FetchCursor lw1 }

end QueuePage

/-- The function `get_current_song_id` (lines 200-209). -/
def get_current_song_id (status : Option mpd_status) : Int :=
  match status with
  | none => -1
  | some st =>
    if st.state = mpd_state.MPD_STATE_PLAY ∨ st.state = mpd_state.MPD_STATE_PAUSE then
      st.song_id
    else -1

/-- Bit `MPD_IDLE_QUEUE` of `enum mpd_idle` (libmpdclient). -/
def MPD_IDLE_QUEUE : Nat := 4

/-- Bit `MPD_IDLE_PLAYER` of `enum mpd_idle` (libmpdclient). -/
def MPD_IDLE_PLAYER : Nat := 8

/-- What the page reads of a `struct mpdclient`: the queue snapshot, the
player status (null is `none`), the connection id and `IsConnected()`. -/
structure mpdclient where
  playlist : MpdQueue
  status : Option mpd_status
  connection_id : Nat
  connected : Bool
deriving DecidableEq

namespace QueuePage

/-- The method `QueuePage::OnSongChange` (lines 211-224); the first component
is the returned flag.  `FetchCursor` is the parameter of `CenterPlayingItem`. -/
def OnSongChange (options : Options) (FetchCursor : ListWindow → ListWindow)
    (status : Option mpd_status) (q : QueuePage) : Bool × QueuePage :=
  if get_current_song_id status = q.current_song_id then (false, q)
  else
    let q1 := { q with current_song_id := get_current_song_id status }
    let q2 := if options.auto_center && !q1.lw.range_selection then
        CenterPlayingItem FetchCursor status false q1
      else q1
    (true, q2)

/-- The method `QueuePage::Update` (lines 442-466).  The page's `playlist`
pointer designates `c.playlist`.  The connection name, a display string, is
left out; `last_connection_id` is kept.  `FetchCursor` is the parameter of
`CenterPlayingItem`. -/
def Update (options : Options) (FetchCursor : ListWindow → ListWindow) (c : mpdclient)
    (events : Nat) (q : QueuePage) : QueuePage :=
  let q1 := { q with playing :=
      match c.status with
      | some st => decide (st.state = mpd_state.MPD_STATE_PLAY)
      | none => false }
  let q2 := if c.connection_id ≠ q1.last_connection_id then
      { q1 with last_connection_id := c.connection_id }
    else q1
  let q3 := if events &&& MPD_IDLE_QUEUE ≠ 0 then RestoreSelection c.playlist q2
    else { q2 with lw := q2.lw.SetLength c.playlist.length }
  let r := if events &&& MPD_IDLE_PLAYER ≠ 0 then OnSongChange options FetchCursor c.status q3
    else (false, q3)
  if r.1 || decide (events &&& MPD_IDLE_QUEUE ≠ 0) then SetDirty r.2 else r.2

end QueuePage

/-! ## Timers, commands and the collaborators of `OnCommand` -/

/-- The GLib main context as far as the page's timer goes: the last source id
handed out, and the ids of the attached timeout sources whose callback is
`OnHideCursorTimer` on this page (the other sources of the program are left
out). -/
structure GMainContext where
  last_id : Nat
  sources : List Nat
deriving DecidableEq

/-- GLib `g_timeout_add_seconds`: attaches a new source and returns its id,
which GLib documents to be greater than zero. -/
def g_timeout_add_seconds (m : GMainContext) : Nat × GMainContext :=
  (m.last_id + 1, { last_id := m.last_id + 1, sources := m.sources ++ [m.last_id + 1] })

/-- GLib `g_source_remove`: detaches the source with the given id. -/
def g_source_remove (m : GMainContext) (id : Nat) : GMainContext :=
  { m with sources := m.sources.erase id }

/-- The values of `command_t` that `QueuePage::OnCommand` names; every other
command is `CMD_OTHER n`. -/
inductive command_t where
  | CMD_NONE
  | CMD_SCREEN_UPDATE
  | CMD_SELECT_PLAYING
  | CMD_LIST_FIND
  | CMD_LIST_RFIND
  | CMD_LIST_FIND_NEXT
  | CMD_LIST_RFIND_NEXT
  | CMD_LIST_JUMP
  | CMD_SCREEN_SONG
  | CMD_SCREEN_LYRICS
  | CMD_SCREEN_SWAP
  | CMD_PLAY
  | CMD_DELETE
  | CMD_SAVE_PLAYLIST
  | CMD_ADD
  | CMD_SHUFFLE
  | CMD_LIST_MOVE_UP
  | CMD_LIST_MOVE_DOWN
  | CMD_LOCATE
  | CMD_OTHER (n : Nat)
deriving DecidableEq

/-- One call from the page into a collaborator that is outside the sources,
with the arguments that come from the page. -/
inductive Call where
  | Repaint
  | screen_find (cmd : command_t)
  | screen_jump
  | screen_song_switch (song : Nat)
  | screen_lyrics_switch (pos : Nat)
  | screen_Swap (song : Option Nat)
  | screen_file_goto_song (song : Nat)
  | mpd_run_play_id (id : Nat)
  | mpdclient_handle_error
  | mpdclient_cmd_delete_range (start_index end_index : Nat)
  | playlist_save
  | mpdclient_cmd_add_path (path : String)
  | mpd_run_shuffle_range (start_index end_index : Nat)
  | screen_status_message
  | mpdclient_cmd_move (dest_pos src_pos : Nat)
deriving DecidableEq

/-- The collaborators of `QueuePage::OnCommand` that are outside the sources,
as parameters: the options and build switches, the base class handler
`ListPage::OnCommand` (`none` when it returns false; otherwise the list window
and dirty flag it leaves), `ListWindow::FetchCursor`, the search dialogs that
are handed the list window, `MpdQueue::Find` on the current song, the line
editor, whether a call into the screen manager leaves the queue page for
another page, and the transport primitives, each with its result and the
client it leaves. -/
structure Collaborators where
  options : Options
  ENABLE_SONG_SCREEN : Bool
  ENABLE_LYRICS_SCREEN : Bool
  ListPage_OnCommand : ListWindow → Bool → command_t → Option (ListWindow × Bool)
  ListWindow_FetchCursor : ListWindow → ListWindow
  ScreenManager_leaves_page : Call → Bool
  screen_find : ListWindow → command_t → MpdQueue → ListWindow
  screen_jump : ListWindow → MpdQueue → ListWindow
  playlist_Find : mpdclient → Int
  screen_readln : Option String
  mpdclient_get_connection : mpdclient → Bool
  mpd_run_play_id : mpdclient → Nat → Bool
  mpdclient_handle_error : mpdclient → mpdclient
  mpdclient_cmd_delete_range : mpdclient → Nat → Nat → mpdclient
  mpd_run_shuffle_range : mpdclient → Nat → Nat → Bool
  mpdclient_cmd_move : mpdclient → Nat → Nat → Bool × mpdclient

/-- Everything a command or a timer callback can read or write: the page, the
client `c`, the GLib main context, the function-static `cached_cmd` of
`OnCommand`, and the calls made into collaborators so far (latest last). -/
structure World where
  page : QueuePage
  c : mpdclient
  main : GMainContext
  cached_cmd : command_t
  calls : List Call
deriving DecidableEq

namespace QueuePage

/-- The callback `QueuePage::OnHideCursorTimer` (lines 349-369).  The result
is `none` when one of its two assertions fails; otherwise the returned
`gboolean` and the state it leaves. -/
def OnHideCursorTimer (options : Options) (w : World) : Option (Bool × World) :=
  if ¬ (0 < options.hide_cursor) then none
  else if ¬ (w.page.timer_hide_cursor_id ≠ 0) then none
  else
    let w1 := { w with page := { w.page with timer_hide_cursor_id := 0 } }
    if w1.page.playing then
      some (false,
        { w1 with
          page := { w1.page with lw := { w1.page.lw with hide_cursor := true } }
          calls := w1.calls ++ [Call.Repaint] })
    else
      let r := g_timeout_add_seconds w1.main
      some (false, { w1 with page := { w1.page with timer_hide_cursor_id := r.1 }, main := r.2 })

/-- The method `QueuePage::OnClose` (lines 387-399), without the marquee. -/
def OnClose (w : World) : World :=
  if w.page.timer_hide_cursor_id ≠ 0 then
    { w with
      main := g_source_remove w.main w.page.timer_hide_cursor_id
      page := { w.page with timer_hide_cursor_id := 0 } }
  else w

/-- The method `QueuePage::OnOpen` (lines 371-385).  The result is `none`
when its assertion that no timer is pending fails.  The page's `playlist`
pointer is set to `c.playlist`. -/
def OnOpen (options : Options) (FetchCursor : ListWindow → ListWindow)
    (w : World) : Option World :=
  if ¬ (w.page.timer_hide_cursor_id = 0) then none
  else
    let w1 := if 0 < options.hide_cursor then
        let r := g_timeout_add_seconds w.main
        { w with
          main := r.2
          page := { w.page with
            lw := { w.page.lw with hide_cursor := false }
            timer_hide_cursor_id := r.1 } }
      else w
    let page1 := RestoreSelection w1.c.playlist w1.page
    some { w1 with page := (OnSongChange options FetchCursor w1.c.status page1).2 }

end QueuePage

/-- GLib's dispatch of the page's timeout source when it comes due: the
callback runs, and a source whose callback returns false is detached. -/
def g_timeout_dispatch (options : Options) (w : World) : Option World :=
  match QueuePage.OnHideCursorTimer options w with
  | none => none
  | some r =>
    if r.1 then some r.2
    else some { r.2 with main := g_source_remove r.2.main w.page.timer_hide_cursor_id }

/-- Modelled from the spec: the page switch of `ScreenManager`, reached
through `screen.Swap`, `screen_song_switch`, `screen_lyrics_switch` and
`screen_file_goto_song`, is not among the sources.  The call is recorded;
whether it leaves the queue page for another page is a parameter; a page that
is left is closed.  Spec 4.4 and 5: closing the view is the only teardown
path and cancels any pending timer synchronously; `OnOpen` asserts at line
376 that no timer is pending when the page is opened again. -/
def ScreenManager_Switch (env : Collaborators) (call : Call) (w : World) : World :=
  let w1 := { w with calls := w.calls ++ [call] }
  if env.ScreenManager_leaves_page call then QueuePage.OnClose w1 else w1

/-- The function `handle_add_to_playlist` (lines 293-341): the line editor
yields a path or nothing; a path is handed to `mpdclient_cmd_add_path`.  The
completion lists it builds and frees do not outlive it. -/
def handle_add_to_playlist (env : Collaborators) (w : World) : World :=
  match env.screen_readln with
  | some path => { w with calls := w.calls ++ [Call.mpdclient_cmd_add_path path] }
  | none => w

namespace QueuePage

/-- Lines 515-527 of `QueuePage::OnCommand`: remember the command in
`cached_cmd`, show the cursor, and restart the hide-cursor timer when
`options.hide_cursor` is positive. -/
def OnCommand_prologue (env : Collaborators) (cmd : command_t) (w : World) : World :=
  let w1 := { w with
    cached_cmd := cmd
    page := { w.page with lw := { w.page.lw with hide_cursor := false } } }
  if 0 < env.options.hide_cursor then
    let m1 := if w1.page.timer_hide_cursor_id ≠ 0 then
        g_source_remove w1.main w1.page.timer_hide_cursor_id
      else w1.main
    let r := g_timeout_add_seconds m1
    { w1 with main := r.2, page := { w1.page with timer_hide_cursor_id := r.1 } }
  else w1

/-- The first `switch` of `QueuePage::OnCommand` (lines 534-597).  The result
is `none` when control leaves the switch through `break`.  The calls that
switch pages go through `ScreenManager_Switch`. -/
def OnCommand_first (env : Collaborators) (prev_cmd cmd : command_t)
    (w : World) : Option (Bool × World) :=
  match cmd with
  | command_t.CMD_SCREEN_UPDATE =>
    let center_cursor := decide (prev_cmd = command_t.CMD_SCREEN_UPDATE)
    let page1 := CenterPlayingItem env.ListWindow_FetchCursor w.c.status center_cursor w.page
    some (false, { w with page := SetDirty page1 })
  | command_t.CMD_SELECT_PLAYING =>
    some (true, { w with page := SetDirty (SaveSelection w.c.playlist
      { w.page with lw := w.page.lw.SetCursor (unsigned_of_int (env.playlist_Find w.c)) }) })
  | command_t.CMD_LIST_FIND | command_t.CMD_LIST_RFIND
  | command_t.CMD_LIST_FIND_NEXT | command_t.CMD_LIST_RFIND_NEXT =>
    some (true, { w with
      page := SetDirty (SaveSelection w.c.playlist
        { w.page with lw := env.screen_find w.page.lw cmd w.c.playlist })
      calls := w.calls ++ [Call.screen_find cmd] })
  | command_t.CMD_LIST_JUMP =>
    some (true, { w with
      page := SetDirty (SaveSelection w.c.playlist
        { w.page with lw := env.screen_jump w.page.lw w.c.playlist })
      calls := w.calls ++ [Call.screen_jump] })
  | command_t.CMD_SCREEN_SONG =>
    if env.ENABLE_SONG_SCREEN then
      match GetSelectedSong w.c.playlist w.page with
      | some id => some (true, ScreenManager_Switch env (Call.screen_song_switch id) w)
      | none => none
    else none
  | command_t.CMD_SCREEN_LYRICS =>
    if env.ENABLE_LYRICS_SCREEN then
      if w.page.lw.selected < w.c.playlist.length then
        some (true, ScreenManager_Switch env (Call.screen_lyrics_switch w.page.lw.selected) w)
      else none
    else none
  | command_t.CMD_SCREEN_SWAP =>
    let song := if w.c.playlist.isEmpty then none else w.c.playlist[w.page.lw.selected]?
    some (true, ScreenManager_Switch env (Call.screen_Swap song) w)
  | _ => none

/-- The second `switch` of `QueuePage::OnCommand` (lines 602-699), reached
only when the client is connected.  The result is `none` when control leaves
the switch through `break`. -/
def OnCommand_second (env : Collaborators) (cmd : command_t)
    (w : World) : Option (Bool × World) :=
  match cmd with
  | command_t.CMD_PLAY =>
    match GetSelectedSong w.c.playlist w.page with
    | none => some (false, w)
    | some id =>
      if env.mpdclient_get_connection w.c then
        if env.mpd_run_play_id w.c id then
          some (true, { w with calls := w.calls ++ [Call.mpd_run_play_id id] })
        else
          some (true, { w with
            c := env.mpdclient_handle_error w.c
            calls := w.calls ++ [Call.mpd_run_play_id id, Call.mpdclient_handle_error] })
      else some (true, w)
  | command_t.CMD_DELETE =>
    let range := w.page.lw.GetRange
    some (true, { w with
      c := env.mpdclient_cmd_delete_range w.c range.start_index range.end_index
      page := { w.page with lw := w.page.lw.SetCursor range.start_index }
      calls := w.calls ++
        [Call.mpdclient_cmd_delete_range range.start_index range.end_index] })
  | command_t.CMD_SAVE_PLAYLIST =>
    some (true, { w with calls := w.calls ++ [Call.playlist_save] })
  | command_t.CMD_ADD =>
    some (true, handle_add_to_playlist env w)
  | command_t.CMD_SHUFFLE =>
    let range := w.page.lw.GetRange
    if range.end_index ≤ unsigned_inc range.start_index then none
    else if !env.mpdclient_get_connection w.c then some (true, w)
    else if env.mpd_run_shuffle_range w.c range.start_index range.end_index then
      some (true, { w with calls := w.calls ++
        [Call.mpd_run_shuffle_range range.start_index range.end_index,
         Call.screen_status_message] })
    else
      some (true, { w with
        c := env.mpdclient_handle_error w.c
        calls := w.calls ++
          [Call.mpd_run_shuffle_range range.start_index range.end_index,
           Call.mpdclient_handle_error] })
  | command_t.CMD_LIST_MOVE_UP =>
    let range := w.page.lw.GetRange
    if range.start_index = 0 ∨ range.empty = true then some (false, w)
    else
      let r := env.mpdclient_cmd_move w.c
        (unsigned_dec range.end_index) (unsigned_dec range.start_index)
      let w1 := { w with
        c := r.2
        calls := w.calls ++ [Call.mpdclient_cmd_move
          (unsigned_dec range.end_index) (unsigned_dec range.start_index)] }
      if !r.1 then some (true, w1)
      else
        let lw1 := { w1.page.lw with
          selected := unsigned_dec w1.page.lw.selected
          range_base := unsigned_dec w1.page.lw.range_base }
        let lw2 := if lw1.range_selection then lw1.ScrollTo lw1.range_base else lw1
        let lw3 := lw2.ScrollTo lw2.selected
        some (true, { w1 with page := SaveSelection w1.c.playlist { w1.page with lw := lw3 } })
  | command_t.CMD_LIST_MOVE_DOWN =>
    let range := w.page.lw.GetRange
    if w.c.playlist.length ≤ range.end_index then some (false, w)
    else
      let r := env.mpdclient_cmd_move w.c range.start_index range.end_index
      let w1 := { w with
        c := r.2
        calls := w.calls ++
          [Call.mpdclient_cmd_move range.start_index range.end_index] }
      if !r.1 then some (true, w1)
      else
        let lw1 := { w1.page.lw with
          selected := unsigned_inc w1.page.lw.selected
          range_base := unsigned_inc w1.page.lw.range_base }
        let lw2 := if lw1.range_selection then lw1.ScrollTo lw1.range_base else lw1
        let lw3 := lw2.ScrollTo lw2.selected
        some (true, { w1 with page := SaveSelection w1.c.playlist { w1.page with lw := lw3 } })
  | command_t.CMD_LOCATE =>
    match GetSelectedSong w.c.playlist w.page with
    | some id => some (true, ScreenManager_Switch env (Call.screen_file_goto_song id) w)
    | none => none
  | _ => none

/-- The method `QueuePage::OnCommand` (lines 511-702); the first component is
the returned flag.  `prev_cmd` is the value `cached_cmd` had on entry. -/
def OnCommand (env : Collaborators) (cmd : command_t) (w : World) : Bool × World :=
  let prev_cmd := w.cached_cmd
  let w1 := OnCommand_prologue env cmd w
  match env.ListPage_OnCommand w1.page.lw w1.page.dirty cmd with
  | some r =>
    (true, { w1 with
      page := SaveSelection w1.c.playlist { w1.page with lw := r.1, dirty := r.2 } })
  | none =>
    match OnCommand_first env prev_cmd cmd w1 with
    | some r => r
    | none =>
      if !w1.c.connected then (false, w1)
      else
        match OnCommand_second env cmd w1 with
        | some r => r
        | none => (false, w1)

end QueuePage

/-! ## Worked-example states -/

/-- Collaborators for worked examples: the base class declines every command,
`FetchCursor` and the dialogs leave the list window alone, every call into
the screen manager leaves the queue page, the transport is reachable, and
`mpdclient_cmd_move` answers `move_ok` without touching the client. -/
def scriptedCollaborators (move_ok : Bool) : Collaborators :=
  { options := { hide_cursor := 5, auto_center := true }
    ENABLE_SONG_SCREEN := true
    ENABLE_LYRICS_SCREEN := true
    ListPage_OnCommand := fun _ _ _ => none
    ListWindow_FetchCursor := fun lw => lw
    ScreenManager_leaves_page := fun _ => true
    screen_find := fun lw _ _ => lw
    screen_jump := fun lw _ => lw
    playlist_Find := fun _ => -1
    screen_readln := none
    mpdclient_get_connection := fun c => c.connected
    mpd_run_play_id := fun _ _ => true
    mpdclient_handle_error := fun c => c
    mpdclient_cmd_delete_range := fun c _ _ => c
    mpd_run_shuffle_range := fun _ _ _ => true
    mpdclient_cmd_move := fun c _ _ => (move_ok, c) }

/-- A ten-row window scrolled to the top over a list of `length` rows. -/
def windowOver (length selected : Nat) (range_selection : Bool) (range_base : Nat)
    (hide_cursor : Bool) : ListWindow :=
  { start := 0, height := 10, length := length, selected := selected,
    range_selection := range_selection, range_base := range_base,
    hide_cursor := hide_cursor }

/-- A page around a list window, with the remembered song id, the pending
hide-cursor timer id (`0` for none) and the playing flag given; nothing is
recorded as the current song and the view is clean. -/
def pageWith (lw : ListWindow) (selected_song_id : Int) (timer : Nat)
    (playing : Bool) : QueuePage :=
  { lw := lw, current_song_id := -1, selected_song_id := selected_song_id,
    timer_hide_cursor_id := timer, last_connection_id := 0, playing := playing,
    dirty := false }

/-- A world around a page: a connected client holding `playlist`, a main
context whose only attached source is the page's pending timer, no earlier
command and no calls made yet. -/
def worldWith (page : QueuePage) (playlist : MpdQueue) : World :=
  { page := page
    c := { playlist := playlist, status := none, connection_id := 0, connected := true }
    main := { last_id := page.timer_hide_cursor_id
              sources := if page.timer_hide_cursor_id = 0 then []
                else [page.timer_hide_cursor_id] }
    cached_cmd := command_t.CMD_NONE
    calls := [] }

/-- The world in which timer 7 has come due while playing, over the queue
10, 11, 12: the cursor is hidden, no timer is pending, no source attached. -/
def hiddenAfterTimer : World :=
  { page := pageWith (windowOver 3 1 false 0 true) 11 0 true
    c := { playlist := [10, 11, 12], status := none, connection_id := 0, connected := true }
    main := { last_id := 7, sources := [] }
    cached_cmd := command_t.CMD_NONE
    calls := [Call.Repaint] }

/-! ## The marquee (`src/BasicMarquee.hxx`) -/

/-- The data members of `BasicMarquee` that its inline methods read or write:
`max_offset`, a `size_t`, whose width is the platform's and is not less than
that of an `unsigned` (64 bits where pointers are); `width` and `offset`, both
`unsigned`.  The strings `separator`, `text` and `buffer` are used only by the
methods defined outside the header. -/
structure BasicMarquee where
  max_offset : Nat
  width : Nat
  offset : Nat
deriving DecidableEq

namespace BasicMarquee

/-- The method `BasicMarquee::IsDefined` (lines 47-49). -/
def IsDefined (m : BasicMarquee) : Bool := decide (0 < m.width)

/-- The method `BasicMarquee::Rewind` (lines 64-66). -/
def Rewind (m : BasicMarquee) : BasicMarquee := { m with offset := 0 }

/-- The method `BasicMarquee::Step` (lines 68-73): `++offset` on the
`unsigned`, then the comparison with `max_offset` in `size_t`. -/
def Step (m : BasicMarquee) : BasicMarquee :=
  let m1 := { m with offset := unsigned_inc m.offset }
  if m1.max_offset ≤ m1.offset then { m1 with offset := 0 } else m1

end BasicMarquee

/-- A marquee as `Set` leaves it for the text "Hello World" in a five-cell
column: eleven characters and a one-character separator. -/
def helloWorldMarquee : BasicMarquee := { max_offset := 12, width := 5, offset := 0 }

/-- A marquee whose text plus separator is one character longer than an
`unsigned` can count: `max_offset` is two to the thirty-second plus one. -/
def oversizeMarquee : BasicMarquee := { max_offset := 4294967297, width := 5, offset := 0 }

open QueuePage

/-! ## Facts about the integer conversions -/

theorem int_of_unsigned_of_lt (u : Nat) (h : u < INT_LIMIT) : int_of_unsigned u = (u : Int) := by
  unfold int_of_unsigned
  have : u % UINT_SIZE = u := Nat.mod_eq_of_lt (by unfold INT_LIMIT at h; unfold UINT_SIZE; omega)
  rw [this, if_pos h]

theorem unsigned_of_int_natCast (u : Nat) (h : u < UINT_SIZE) : unsigned_of_int (u : Int) = u := by
  unfold unsigned_of_int
  rw [← Int.natCast_mod, Nat.mod_eq_of_lt h]
  simp

theorem int_of_unsigned_of_int (i : Int) (h0 : 0 ≤ i) (h1 : i < INT_LIMIT) :
    int_of_unsigned (unsigned_of_int i) = i := by
  obtain ⟨n, rfl⟩ := Int.eq_ofNat_of_zero_le h0
  have hn : n < INT_LIMIT := by exact_mod_cast h1
  rw [unsigned_of_int_natCast n (by unfold INT_LIMIT at hn; unfold UINT_SIZE; omega)]
  exact int_of_unsigned_of_lt n hn

theorem unsigned_of_int_of_unsigned (u : Nat) (hu : u < UINT_SIZE)
    (h : 0 ≤ int_of_unsigned u) : unsigned_of_int (int_of_unsigned u) = u := by
  unfold int_of_unsigned at h ⊢
  have hm : u % UINT_SIZE = u := Nat.mod_eq_of_lt hu
  rw [hm] at h ⊢
  split_ifs at h ⊢ with hlt
  · exact unsigned_of_int_natCast u hu
  · exfalso; unfold UINT_SIZE at hu h; omega

theorem unsigned_dec_exact (x : Nat) (h0 : x ≠ 0) (h1 : x ≤ UINT_SIZE) :
    unsigned_dec x + 1 = x := by
  unfold unsigned_dec UINT_SIZE at *
  omega

theorem unsigned_inc_exact (x : Nat) (h1 : x + 1 < UINT_SIZE) :
    unsigned_inc x = x + 1 := by
  unfold unsigned_inc UINT_SIZE at *
  omega

/-! ## Facts about the list window -/

theorem ListWindow.ScrollTo_selected (lw : ListWindow) (i : Nat) :
    (lw.ScrollTo i).selected = lw.selected := by
  unfold ListWindow.ScrollTo; split_ifs <;> rfl

theorem ListWindow.ScrollTo_range_selection (lw : ListWindow) (i : Nat) :
    (lw.ScrollTo i).range_selection = lw.range_selection := by
  unfold ListWindow.ScrollTo; split_ifs <;> rfl

theorem ListWindow.ScrollTo_length (lw : ListWindow) (i : Nat) :
    (lw.ScrollTo i).length = lw.length := by
  unfold ListWindow.ScrollTo; split_ifs <;> rfl

theorem ListWindow.ScrollTo_range_base (lw : ListWindow) (i : Nat) :
    (lw.ScrollTo i).range_base = lw.range_base := by
  unfold ListWindow.ScrollTo; split_ifs <;> rfl

theorem ListWindow.ScrollTo_hide_cursor (lw : ListWindow) (i : Nat) :
    (lw.ScrollTo i).hide_cursor = lw.hide_cursor := by
  unfold ListWindow.ScrollTo; split_ifs <;> rfl

theorem ScrollTo_if_selected (lw : ListWindow) (b : Prop) [Decidable b] (i : Nat) :
    (if b then lw.ScrollTo i else lw).selected = lw.selected := by
  split_ifs <;> simp [ListWindow.ScrollTo_selected]

theorem ScrollTo_if_range_base (lw : ListWindow) (b : Prop) [Decidable b] (i : Nat) :
    (if b then lw.ScrollTo i else lw).range_base = lw.range_base := by
  split_ifs <;> simp [ListWindow.ScrollTo_range_base]

theorem ScrollTo_if_hide_cursor (lw : ListWindow) (b : Prop) [Decidable b] (i : Nat) :
    (if b then lw.ScrollTo i else lw).hide_cursor = lw.hide_cursor := by
  split_ifs <;> simp [ListWindow.ScrollTo_hide_cursor]

theorem ListWindow.SetCursor_selected_of_lt (lw : ListWindow) (i : Nat) (h : i < lw.length) :
    (lw.SetCursor i).selected = i := by
  have h0 : lw.length ≠ 0 := by omega
  simp [ListWindow.SetCursor, ListWindow.ScrollTo_selected, h, h0]

theorem ListWindow.SetCursor_range_selection (lw : ListWindow) (i : Nat) :
    (lw.SetCursor i).range_selection = lw.range_selection := by
  simp [ListWindow.SetCursor, ListWindow.ScrollTo_range_selection]

theorem ListWindow.SetCursor_hide_cursor (lw : ListWindow) (i : Nat) :
    (lw.SetCursor i).hide_cursor = lw.hide_cursor := by
  simp [ListWindow.SetCursor, ListWindow.ScrollTo_hide_cursor]

theorem SetLength_selected_lt (lw : ListWindow) (n : Nat) (hn : n ≠ 0) :
    (lw.SetLength n).selected < n := by
  simp only [ListWindow.SetLength, hn, if_false]; split_ifs <;> omega

/-- A list window whose cursor and range anchor already respect the length `n`. -/
theorem SetLength_fixed (lw : ListWindow) (n : Nat)
    (hl : lw.length = n) (hs : if n = 0 then lw.selected = 0 else lw.selected < n)
    (hr : lw.range_selection = true → lw.range_base < n) :
    lw.SetLength n = lw := by
  cases lw with
  | mk start height length selected range_selection range_base hide_cursor =>
    simp only at hl hs hr
    simp only [ListWindow.SetLength, ListWindow.mk.injEq, true_and, and_true]
    refine ⟨hl.symm, ?_, ?_⟩
    · split_ifs at hs ⊢ <;> omega
    · cases range_selection <;> simp_all

theorem SetLength_SetLength (lw : ListWindow) (n : Nat) :
    (lw.SetLength n).SetLength n = lw.SetLength n := by
  apply SetLength_fixed
  · rfl
  · simp only [ListWindow.SetLength]; split_ifs <;> omega
  · simp [ListWindow.SetLength]

theorem SetLength_SetCursor (lw : ListWindow) (n i : Nat) :
    ((lw.SetLength n).SetCursor i).SetLength n = (lw.SetLength n).SetCursor i := by
  apply SetLength_fixed
  · simp [ListWindow.SetCursor, ListWindow.ScrollTo_length, ListWindow.SetLength]
  · simp only [ListWindow.SetCursor, ListWindow.ScrollTo_selected, ListWindow.SetLength]
    split_ifs <;> omega
  · simp [ListWindow.SetCursor, ListWindow.ScrollTo_range_selection,
      ListWindow.ScrollTo_range_base, ListWindow.SetLength]

theorem GetRange_hide_cursor (lw : ListWindow) (b : Bool) :
    ListWindow.GetRange { lw with hide_cursor := b } = lw.GetRange := rfl

theorem GetRange_start_ne_zero (lw : ListWindow) (hl : lw.length ≠ 0)
    (h : lw.GetRange.start_index ≠ 0) :
    lw.selected ≠ 0 ∧ (lw.range_selection = true → lw.range_base ≠ 0) := by
  unfold ListWindow.GetRange at h
  simp only [hl, if_false] at h
  split_ifs at h with h1 h2 <;> simp_all <;> omega

theorem GetRange_end_lt (lw : ListWindow) (n : Nat) (hl : lw.length ≠ 0)
    (h : lw.GetRange.end_index < n) :
    lw.selected + 1 < n ∧ (lw.range_selection = true → lw.range_base + 1 < n) := by
  unfold ListWindow.GetRange at h
  simp only [hl, if_false] at h
  split_ifs at h with h1 h2 <;> simp_all <;> omega

/-! ## Facts about the queue search and the selection methods -/

theorem FindId_of_nodup (playlist : MpdQueue) (p id : Nat) (hn : playlist.Nodup)
    (hp : playlist[p]? = some id) : MpdQueue.FindId playlist id = (p : Int) := by
  obtain ⟨hlt, hget⟩ := List.getElem?_eq_some_iff.mp hp
  have h3 : playlist.indexOf id = p := by
    rw [← hget]; exact List.indexOf_getElem hn p hlt
  simp [MpdQueue.FindId, h3, hlt]

theorem FindId_of_not_mem (playlist : MpdQueue) (id : Nat) (h : id ∉ playlist) :
    MpdQueue.FindId playlist id = -1 := by
  have : ¬ playlist.indexOf id < playlist.length := by
    rw [List.indexOf_lt_length]; exact h
  simp [MpdQueue.FindId, this]

theorem FindId_cases (playlist : MpdQueue) (id : Nat) :
    (MpdQueue.FindId playlist id = -1 ∧ id ∉ playlist) ∨
    (∃ p : Nat, MpdQueue.FindId playlist id = (p : Int) ∧ playlist[p]? = some id) := by
  by_cases h : id ∈ playlist
  · right
    have hlt : playlist.indexOf id < playlist.length := List.indexOf_lt_length.mpr h
    refine ⟨playlist.indexOf id, by simp [MpdQueue.FindId, hlt], ?_⟩
    rw [List.getElem?_eq_getElem hlt]
    simp
  · exact Or.inl ⟨FindId_of_not_mem playlist id h, h⟩

theorem GetSelectedSong_mem (playlist : MpdQueue) (q : QueuePage) (id : Nat)
    (h : GetSelectedSong playlist q = some id) : id ∈ playlist := by
  unfold GetSelectedSong at h
  split_ifs at h
  obtain ⟨hlt, hget⟩ := List.getElem?_eq_some_iff.mp h
  exact hget ▸ List.getElem_mem hlt

theorem GetSelectedSong_getElem? (playlist : MpdQueue) (q : QueuePage) (id : Nat)
    (h : GetSelectedSong playlist q = some id) : playlist[q.lw.selected]? = some id := by
  unfold GetSelectedSong at h
  split_ifs at h
  exact h

theorem GetSelectedSong_of_cursor (playlist : MpdQueue) (q : QueuePage)
    (hr : q.lw.range_selection = false) (hs : q.lw.selected < playlist.length) :
    GetSelectedSong playlist q = some (playlist[q.lw.selected]) := by
  simp [GetSelectedSong, hr, hs]

theorem SaveSelection_lw (playlist : MpdQueue) (q : QueuePage) :
    (SaveSelection playlist q).lw = q.lw := rfl

theorem SaveSelection_of_cursor (playlist : MpdQueue) (q : QueuePage)
    (hr : q.lw.range_selection = false) (hs : q.lw.selected < playlist.length) :
    (SaveSelection playlist q).selected_song_id = int_of_unsigned (playlist[q.lw.selected]) := by
  simp [SaveSelection, GetSelectedSong_of_cursor playlist q hr hs]

theorem SaveSelection_settled (playlist : MpdQueue) (q : QueuePage)
    (hids : ∀ id ∈ playlist, id < UINT_SIZE) :
    (SaveSelection playlist q).selected_song_id < 0 ∨
      GetSelectedSong playlist (SaveSelection playlist q) =
        some (unsigned_of_int (SaveSelection playlist q).selected_song_id) := by
  have hg : GetSelectedSong playlist (SaveSelection playlist q) = GetSelectedSong playlist q := rfl
  rw [hg]
  cases hs : GetSelectedSong playlist q with
  | none => left; simp [SaveSelection, hs]
  | some id =>
    have hsid : (SaveSelection playlist q).selected_song_id = int_of_unsigned id := by
      simp [SaveSelection, hs]
    rw [hsid]
    by_cases hneg : int_of_unsigned id < 0
    · exact Or.inl hneg
    · right
      rw [unsigned_of_int_of_unsigned id (hids id (GetSelectedSong_mem _ _ _ hs)) (by omega)]

theorem RestoreSelection_none (playlist : MpdQueue) (q : QueuePage)
    (h : q.selected_song_id < 0) :
    RestoreSelection playlist q = { q with lw := q.lw.SetLength playlist.length } := by
  unfold RestoreSelection; simp only [h, if_true]

theorem RestoreSelection_valid (playlist : MpdQueue) (q : QueuePage)
    (h : 0 ≤ q.selected_song_id)
    (hv : GetSelectedSong playlist { q with lw := q.lw.SetLength playlist.length }
      = some (unsigned_of_int q.selected_song_id)) :
    RestoreSelection playlist q = { q with lw := q.lw.SetLength playlist.length } := by
  have hnn : ¬ q.selected_song_id < 0 := by omega
  unfold RestoreSelection; simp only [hnn, if_false, hv, decide_True, if_true]

theorem RestoreSelection_found (playlist : MpdQueue) (q : QueuePage) (p : Nat)
    (h : 0 ≤ q.selected_song_id)
    (hv : GetSelectedSong playlist { q with lw := q.lw.SetLength playlist.length }
      ≠ some (unsigned_of_int q.selected_song_id))
    (hf : MpdQueue.FindId playlist (unsigned_of_int q.selected_song_id) = (p : Int)) :
    RestoreSelection playlist q =
      SaveSelection playlist { q with lw := (q.lw.SetLength playlist.length).SetCursor p } := by
  have hnn : ¬ q.selected_song_id < 0 := by omega
  unfold RestoreSelection
  simp only [hnn, if_false, hf]
  cases hg : GetSelectedSong playlist { q with lw := q.lw.SetLength playlist.length } with
  | none => simp
  | some id =>
    have : id ≠ unsigned_of_int q.selected_song_id := by
      intro e; exact hv (by rw [hg, e])
    simp [this]

theorem RestoreSelection_lost (playlist : MpdQueue) (q : QueuePage)
    (h : 0 ≤ q.selected_song_id)
    (hv : GetSelectedSong playlist { q with lw := q.lw.SetLength playlist.length }
      ≠ some (unsigned_of_int q.selected_song_id))
    (hf : MpdQueue.FindId playlist (unsigned_of_int q.selected_song_id) = -1) :
    RestoreSelection playlist q =
      SaveSelection playlist { q with lw := q.lw.SetLength playlist.length } := by
  have hnn : ¬ q.selected_song_id < 0 := by omega
  unfold RestoreSelection
  simp only [hnn, if_false, hf]
  cases hg : GetSelectedSong playlist { q with lw := q.lw.SetLength playlist.length } with
  | none => simp
  | some id =>
    have : id ≠ unsigned_of_int q.selected_song_id := by
      intro e; exact hv (by rw [hg, e])
    simp [this]

/-- A state on which `RestoreSelection` has nothing left to do. -/
theorem RestoreSelection_fixed (playlist : MpdQueue) (q : QueuePage)
    (hlw : q.lw.SetLength playlist.length = q.lw)
    (h : q.selected_song_id < 0 ∨
      GetSelectedSong playlist q = some (unsigned_of_int q.selected_song_id)) :
    RestoreSelection playlist q = q := by
  have hq : ({ q with lw := q.lw.SetLength playlist.length } : QueuePage) = q := by
    rw [hlw]
  by_cases hneg : q.selected_song_id < 0
  · rw [RestoreSelection_none playlist q hneg, hq]
  · rcases h with h | h
    · exact absurd h hneg
    · rw [RestoreSelection_valid playlist q (by omega) (by rw [hq]; exact h), hq]

theorem RestoreSelection_current_song_id (playlist : MpdQueue) (q : QueuePage) :
    (RestoreSelection playlist q).current_song_id = q.current_song_id := by
  unfold RestoreSelection SaveSelection
  simp only []
  split_ifs <;> rfl

theorem RestoreSelection_dirty (playlist : MpdQueue) (q : QueuePage) :
    (RestoreSelection playlist q).dirty = q.dirty := by
  unfold RestoreSelection SaveSelection
  simp only []
  split_ifs <;> rfl

/-- `RestoreSelection` reads and writes only `lw` and `selected_song_id`. -/
theorem RestoreSelection_congr (playlist : MpdQueue) (q q0 : QueuePage)
    (hlw : q.lw = q0.lw) (hsid : q.selected_song_id = q0.selected_song_id) :
    (RestoreSelection playlist q).lw = (RestoreSelection playlist q0).lw ∧
    (RestoreSelection playlist q).selected_song_id =
      (RestoreSelection playlist q0).selected_song_id := by
  unfold RestoreSelection SaveSelection GetSelectedSong
  simp only [hlw, hsid]
  split_ifs <;> exact ⟨rfl, rfl⟩

/-! ## Facts about song changes and command dispatch -/

theorem OnSongChange_fst (options : Options) (FetchCursor : ListWindow → ListWindow)
    (status : Option mpd_status) (q : QueuePage) :
    (OnSongChange options FetchCursor status q).1
      = decide (get_current_song_id status ≠ q.current_song_id) := by
  unfold OnSongChange
  split_ifs with h <;> simp [h]

theorem OnSongChange_dirty (options : Options) (FetchCursor : ListWindow → ListWindow)
    (status : Option mpd_status) (q : QueuePage) :
    (OnSongChange options FetchCursor status q).2.dirty = q.dirty := by
  unfold OnSongChange CenterPlayingItem
  split_ifs <;> (try rfl) <;> (cases status <;> simp only [] <;> split_ifs <;> rfl)

theorem OnSongChange_selected_song_id (options : Options)
    (FetchCursor : ListWindow → ListWindow) (status : Option mpd_status) (q : QueuePage) :
    (OnSongChange options FetchCursor status q).2.selected_song_id = q.selected_song_id := by
  unfold OnSongChange CenterPlayingItem
  split_ifs <;> (try rfl) <;> (cases status <;> simp only [] <;> split_ifs <;> rfl)

theorem OnSongChange_same (options : Options) (FetchCursor : ListWindow → ListWindow)
    (status : Option mpd_status) (q : QueuePage)
    (h : get_current_song_id status = q.current_song_id) :
    (OnSongChange options FetchCursor status q).2 = q := by
  unfold OnSongChange; simp [h]

theorem CenterPlayingItem_frame (FetchCursor : ListWindow → ListWindow)
    (status : Option mpd_status) (b : Bool) (q : QueuePage)
    (hfetch : ∀ lw, (FetchCursor lw).hide_cursor = lw.hide_cursor) :
    (CenterPlayingItem FetchCursor status b q).lw.hide_cursor = q.lw.hide_cursor ∧
    (CenterPlayingItem FetchCursor status b q).timer_hide_cursor_id
      = q.timer_hide_cursor_id := by
  unfold CenterPlayingItem
  cases status with
  | none => exact ⟨rfl, rfl⟩
  | some st =>
    simp only []
    split_ifs <;>
      simp [ListWindow.SetCursor_hide_cursor, hfetch, ListWindow.Center]

/-- On a song change that recentres, the list window is what `FetchCursor`
makes of the window `Center` computes; the cursor afterwards is the one
`FetchCursor` leaves. -/
theorem OnSongChange_recentre (options : Options) (FetchCursor : ListWindow → ListWindow)
    (st : mpd_status) (q : QueuePage)
    (hnew : get_current_song_id (some st) ≠ q.current_song_id)
    (hauto : options.auto_center = true)
    (hrange : q.lw.range_selection = false)
    (hplay : st.state = mpd_state.MPD_STATE_PLAY ∨ st.state = mpd_state.MPD_STATE_PAUSE)
    (hpos : 0 ≤ st.song_pos) :
    (OnSongChange options FetchCursor (some st) q).1 = true ∧
    (OnSongChange options FetchCursor (some st) q).2.lw
      = FetchCursor (q.lw.Center st.song_pos.toNat) := by
  have hnp : ¬ (st.state ≠ mpd_state.MPD_STATE_PLAY ∧ st.state ≠ mpd_state.MPD_STATE_PAUSE) := by
    rcases hplay with h | h <;> simp [h]
  have hnneg : ¬ st.song_pos < 0 := by omega
  constructor
  · simp [OnSongChange, hnew]
  · simp [OnSongChange, hnew, hauto, hrange, CenterPlayingItem, hnp, hnneg]

theorem OnCommand_prologue_lw (env : Collaborators) (cmd : command_t) (w : World) :
    (OnCommand_prologue env cmd w).page.lw = { w.page.lw with hide_cursor := false } := by
  unfold OnCommand_prologue; simp only []; split_ifs <;> rfl

theorem OnCommand_prologue_selected_song_id (env : Collaborators) (cmd : command_t) (w : World) :
    (OnCommand_prologue env cmd w).page.selected_song_id = w.page.selected_song_id := by
  unfold OnCommand_prologue; simp only []; split_ifs <;> rfl

theorem OnCommand_prologue_dirty (env : Collaborators) (cmd : command_t) (w : World) :
    (OnCommand_prologue env cmd w).page.dirty = w.page.dirty := by
  unfold OnCommand_prologue; simp only []; split_ifs <;> rfl

theorem OnCommand_prologue_c (env : Collaborators) (cmd : command_t) (w : World) :
    (OnCommand_prologue env cmd w).c = w.c := by
  unfold OnCommand_prologue; simp only []; split_ifs <;> rfl

theorem OnCommand_prologue_calls (env : Collaborators) (cmd : command_t) (w : World) :
    (OnCommand_prologue env cmd w).calls = w.calls := by
  unfold OnCommand_prologue; simp only []; split_ifs <;> rfl

/-- The outcome of a command that the base class declines and the first
switch does not name. -/
theorem OnCommand_move (env : Collaborators) (cmd : command_t) (w : World)
    (hcmd : cmd = command_t.CMD_LIST_MOVE_UP ∨ cmd = command_t.CMD_LIST_MOVE_DOWN)
    (hbase : env.ListPage_OnCommand { w.page.lw with hide_cursor := false } w.page.dirty cmd
      = none) :
    OnCommand env cmd w =
      if !w.c.connected then (false, OnCommand_prologue env cmd w)
      else
        match OnCommand_second env cmd (OnCommand_prologue env cmd w) with
        | some r => r
        | none => (false, OnCommand_prologue env cmd w) := by
  unfold OnCommand
  simp only [OnCommand_prologue_lw, OnCommand_prologue_dirty, hbase, OnCommand_prologue_c]
  rcases hcmd with h | h <;> subst h <;> rfl

/-- A call into the screen manager leaves the list window alone; it leaves the
timer bookkeeping alone too, unless it leaves the page while a timer is
pending, in which case `OnClose` has detached the source and cleared the id. -/
theorem ScreenManager_Switch_frame (env : Collaborators) (call : Call) (w : World) :
    (ScreenManager_Switch env call w).page.lw = w.page.lw ∧
    (((ScreenManager_Switch env call w).main = w.main ∧
        (ScreenManager_Switch env call w).page.timer_hide_cursor_id
          = w.page.timer_hide_cursor_id) ∨
      (env.ScreenManager_leaves_page call = true ∧ w.page.timer_hide_cursor_id ≠ 0 ∧
        (ScreenManager_Switch env call w).main
          = g_source_remove w.main w.page.timer_hide_cursor_id ∧
        (ScreenManager_Switch env call w).page.timer_hide_cursor_id = 0)) := by
  unfold ScreenManager_Switch OnClose
  simp only []
  by_cases hl : env.ScreenManager_leaves_page call = true
  · by_cases ht : w.page.timer_hide_cursor_id = 0
    · simp [hl, ht]
    · simp [hl, ht]
  · simp [hl]

theorem OnCommand_first_frame (env : Collaborators) (prev_cmd cmd : command_t) (w : World)
    (r : Bool × World)
    (hfetch : ∀ lw, (env.ListWindow_FetchCursor lw).hide_cursor = lw.hide_cursor)
    (hfind : ∀ lw k pl, (env.screen_find lw k pl).hide_cursor = lw.hide_cursor)
    (hjump : ∀ lw pl, (env.screen_jump lw pl).hide_cursor = lw.hide_cursor)
    (h : OnCommand_first env prev_cmd cmd w = some r) :
    r.2.page.lw.hide_cursor = w.page.lw.hide_cursor ∧
    ((r.2.main = w.main ∧ r.2.page.timer_hide_cursor_id = w.page.timer_hide_cursor_id) ∨
      ((cmd = command_t.CMD_SCREEN_SONG ∨ cmd = command_t.CMD_SCREEN_LYRICS ∨
          cmd = command_t.CMD_SCREEN_SWAP) ∧
        w.page.timer_hide_cursor_id ≠ 0 ∧
        r.2.main = g_source_remove w.main w.page.timer_hide_cursor_id ∧
        r.2.page.timer_hide_cursor_id = 0)) := by
  unfold OnCommand_first at h
  have hc := CenterPlayingItem_frame env.ListWindow_FetchCursor w.c.status
    (decide (prev_cmd = command_t.CMD_SCREEN_UPDATE)) w.page hfetch
  have hsw := fun call => ScreenManager_Switch_frame env call w
  cases cmd <;> simp only [Option.some.injEq] at h <;>
    (try split at h) <;> (try split at h) <;>
    (try simp only [Option.some.injEq] at h) <;> (try cases h) <;>
    first
    | (simp [SetDirty, SaveSelection, hc.1, hc.2, hfind, hjump,
        ListWindow.SetCursor_hide_cursor]; done)
    | (refine ⟨by rw [(hsw _).1], ?_⟩
       rcases (hsw _).2 with hk | ⟨_, ht, hm, hz⟩
       · exact Or.inl hk
       · exact Or.inr ⟨by simp, ht, hm, hz⟩)

theorem OnCommand_second_frame (env : Collaborators) (cmd : command_t) (w : World)
    (r : Bool × World)
    (h : OnCommand_second env cmd w = some r) :
    r.2.page.lw.hide_cursor = w.page.lw.hide_cursor ∧
    ((r.2.main = w.main ∧ r.2.page.timer_hide_cursor_id = w.page.timer_hide_cursor_id) ∨
      (cmd = command_t.CMD_LOCATE ∧ w.page.timer_hide_cursor_id ≠ 0 ∧
        r.2.main = g_source_remove w.main w.page.timer_hide_cursor_id ∧
        r.2.page.timer_hide_cursor_id = 0)) := by
  unfold OnCommand_second handle_add_to_playlist at h
  have hsw := fun call => ScreenManager_Switch_frame env call w
  cases cmd <;> simp only [Option.some.injEq] at h <;>
    (try split at h) <;> (try split at h) <;> (try split at h) <;>
    (try simp only [Option.some.injEq] at h) <;> (try cases h) <;>
    first
    | (simp [SaveSelection, ListWindow.SetCursor_hide_cursor, ListWindow.ScrollTo_hide_cursor,
        ScrollTo_if_hide_cursor]; done)
    | (refine ⟨by rw [(hsw _).1], ?_⟩
       rcases (hsw _).2 with hk | ⟨_, ht, hm, hz⟩
       · exact Or.inl hk
       · exact Or.inr ⟨rfl, ht, hm, hz⟩)

/-- What `OnCommand` returns has the cursor flag of the state at dispatch, and
its timer bookkeeping too, unless one of the four commands that switch pages
left the page while the timer was pending. -/
theorem OnCommand_frame (env : Collaborators) (cmd : command_t) (w : World)
    (hbase : ∀ lw d r, env.ListPage_OnCommand lw d cmd = some r →
      r.1.hide_cursor = lw.hide_cursor)
    (hfetch : ∀ lw, (env.ListWindow_FetchCursor lw).hide_cursor = lw.hide_cursor)
    (hfind : ∀ lw k pl, (env.screen_find lw k pl).hide_cursor = lw.hide_cursor)
    (hjump : ∀ lw pl, (env.screen_jump lw pl).hide_cursor = lw.hide_cursor) :
    (OnCommand env cmd w).2.page.lw.hide_cursor
      = (OnCommand_prologue env cmd w).page.lw.hide_cursor ∧
    (((OnCommand env cmd w).2.main = (OnCommand_prologue env cmd w).main ∧
        (OnCommand env cmd w).2.page.timer_hide_cursor_id
          = (OnCommand_prologue env cmd w).page.timer_hide_cursor_id) ∨
      ((cmd = command_t.CMD_SCREEN_SONG ∨ cmd = command_t.CMD_SCREEN_LYRICS ∨
          cmd = command_t.CMD_SCREEN_SWAP ∨ cmd = command_t.CMD_LOCATE) ∧
        (OnCommand_prologue env cmd w).page.timer_hide_cursor_id ≠ 0 ∧
        (OnCommand env cmd w).2.main
          = g_source_remove (OnCommand_prologue env cmd w).main
              (OnCommand_prologue env cmd w).page.timer_hide_cursor_id ∧
        (OnCommand env cmd w).2.page.timer_hide_cursor_id = 0)) := by
  unfold OnCommand
  simp only []
  cases hb : env.ListPage_OnCommand (OnCommand_prologue env cmd w).page.lw
      (OnCommand_prologue env cmd w).page.dirty cmd with
  | some r => simp [SaveSelection, hbase _ _ _ hb]
  | none =>
    simp only []
    cases h1 : OnCommand_first env w.cached_cmd cmd (OnCommand_prologue env cmd w) with
    | some r =>
      obtain ⟨ha, hb⟩ := OnCommand_first_frame env _ cmd _ r hfetch hfind hjump h1
      refine ⟨ha, ?_⟩
      rcases hb with hk | ⟨hc, ht, hm, hz⟩
      · exact Or.inl hk
      · refine Or.inr ⟨?_, ht, hm, hz⟩
        rcases hc with hc | hc | hc
        · exact Or.inl hc
        · exact Or.inr (Or.inl hc)
        · exact Or.inr (Or.inr (Or.inl hc))
    | none =>
      simp only []
      split_ifs
      · exact ⟨rfl, Or.inl ⟨rfl, rfl⟩⟩
      · cases h2 : OnCommand_second env cmd (OnCommand_prologue env cmd w) with
        | some r =>
          obtain ⟨ha, hb⟩ := OnCommand_second_frame env cmd _ r h2
          refine ⟨ha, ?_⟩
          rcases hb with hk | ⟨hc, ht, hm, hz⟩
          · exact Or.inl hk
          · exact Or.inr ⟨Or.inr (Or.inr (Or.inr hc)), ht, hm, hz⟩
        | none => exact ⟨rfl, Or.inl ⟨rfl, rfl⟩⟩

/-- With the timer configured, the state at dispatch has a new timer, the id
last handed out, and its source is the only one attached. -/
theorem OnCommand_prologue_restart (env : Collaborators) (cmd : command_t) (w : World)
    (hopt : 0 < env.options.hide_cursor)
    (hpending : w.main.sources =
      if w.page.timer_hide_cursor_id = 0 then [] else [w.page.timer_hide_cursor_id])
    (hissued : w.page.timer_hide_cursor_id ≤ w.main.last_id) :
    (OnCommand_prologue env cmd w).page.timer_hide_cursor_id ≠ 0 ∧
    (OnCommand_prologue env cmd w).page.timer_hide_cursor_id ≠ w.page.timer_hide_cursor_id ∧
    (OnCommand_prologue env cmd w).main.sources
      = [(OnCommand_prologue env cmd w).page.timer_hide_cursor_id] ∧
    (OnCommand_prologue env cmd w).main.last_id
      = (OnCommand_prologue env cmd w).page.timer_hide_cursor_id := by
  unfold OnCommand_prologue
  simp only [hopt, if_true, g_timeout_add_seconds, g_source_remove]
  by_cases h0 : w.page.timer_hide_cursor_id = 0
  · simp [h0, hpending]
  · simp [h0, hpending]
    omega

/-- Without the timer configured, the state at dispatch has the timer
bookkeeping it had. -/
theorem OnCommand_prologue_idle (env : Collaborators) (cmd : command_t) (w : World)
    (hopt : ¬ 0 < env.options.hide_cursor) :
    (OnCommand_prologue env cmd w).page.timer_hide_cursor_id = w.page.timer_hide_cursor_id ∧
    (OnCommand_prologue env cmd w).main = w.main := by
  unfold OnCommand_prologue
  simp only [hopt, if_false]
  exact ⟨trivial, trivial⟩

/-- Closing the page keeps the timer bookkeeping in order. -/
theorem OnClose_tracked (w : World)
    (hpending : w.main.sources =
      if w.page.timer_hide_cursor_id = 0 then [] else [w.page.timer_hide_cursor_id]) :
    (OnClose w).page.timer_hide_cursor_id = 0 ∧ (OnClose w).main.sources = [] := by
  unfold OnClose g_source_remove
  by_cases h0 : w.page.timer_hide_cursor_id = 0
  · simp [h0, hpending]
  · simp [h0, hpending]

/-- The dispatch of the pending timer keeps the timer bookkeeping in order. -/
theorem g_timeout_dispatch_tracked (options : Options) (w w1 : World)
    (hpending : w.main.sources =
      if w.page.timer_hide_cursor_id = 0 then [] else [w.page.timer_hide_cursor_id])
    (h : g_timeout_dispatch options w = some w1) :
    w1.main.sources =
      (if w1.page.timer_hide_cursor_id = 0 then [] else [w1.page.timer_hide_cursor_id]) ∧
    w1.page.timer_hide_cursor_id ≤ w1.main.last_id := by
  unfold g_timeout_dispatch OnHideCursorTimer at h
  by_cases hopt : 0 < options.hide_cursor
  · by_cases h0 : w.page.timer_hide_cursor_id = 0
    · simp [hopt, h0] at h
    · by_cases hp : w.page.playing = true
      · simp [hopt, h0, hp, g_source_remove] at h
        subst h
        simp [hpending, h0]
      · simp [hopt, h0, hp, g_source_remove, g_timeout_add_seconds] at h
        subst h
        simp [hpending, h0]
  · simp [hopt] at h

/-- A command keeps the timer bookkeeping in order. -/
theorem OnCommand_tracked (env : Collaborators) (cmd : command_t) (w : World)
    (hbase : ∀ lw d r, env.ListPage_OnCommand lw d cmd = some r →
      r.1.hide_cursor = lw.hide_cursor)
    (hfetch : ∀ lw, (env.ListWindow_FetchCursor lw).hide_cursor = lw.hide_cursor)
    (hfind : ∀ lw k pl, (env.screen_find lw k pl).hide_cursor = lw.hide_cursor)
    (hjump : ∀ lw pl, (env.screen_jump lw pl).hide_cursor = lw.hide_cursor)
    (hpending : w.main.sources =
      if w.page.timer_hide_cursor_id = 0 then [] else [w.page.timer_hide_cursor_id])
    (hissued : w.page.timer_hide_cursor_id ≤ w.main.last_id) :
    (OnCommand env cmd w).2.main.sources =
      (if (OnCommand env cmd w).2.page.timer_hide_cursor_id = 0 then []
        else [(OnCommand env cmd w).2.page.timer_hide_cursor_id]) ∧
    (OnCommand env cmd w).2.page.timer_hide_cursor_id ≤ (OnCommand env cmd w).2.main.last_id := by
  have hP : (OnCommand_prologue env cmd w).main.sources =
      (if (OnCommand_prologue env cmd w).page.timer_hide_cursor_id = 0 then []
        else [(OnCommand_prologue env cmd w).page.timer_hide_cursor_id]) ∧
      (OnCommand_prologue env cmd w).page.timer_hide_cursor_id
        ≤ (OnCommand_prologue env cmd w).main.last_id := by
    by_cases hopt : 0 < env.options.hide_cursor
    · obtain ⟨h1, _, h3, h4⟩ := OnCommand_prologue_restart env cmd w hopt hpending hissued
      rw [h3, h4, if_neg h1]
      exact ⟨rfl, le_refl _⟩
    · obtain ⟨h1, h2⟩ := OnCommand_prologue_idle env cmd w hopt
      rw [h1, h2]
      exact ⟨hpending, hissued⟩
  obtain ⟨_, hF⟩ := OnCommand_frame env cmd w hbase hfetch hfind hjump
  rcases hF with ⟨hm, ht⟩ | ⟨_, hne, hm, hz⟩
  · rw [hm, ht]; exact hP
  · rw [hm, hz]
    simp [g_source_remove, hP.1, hne]

/-- The world `hiddenAfterTimer` is reached when timer 7 comes due while
playing, from a world with the cursor shown and that timer pending. -/
theorem hiddenAfterTimer_reached :
    g_timeout_dispatch { hide_cursor := 5, auto_center := true }
      (worldWith (pageWith (windowOver 3 1 false 0 false) 11 7 true) [10, 11, 12])
      = some hiddenAfterTimer := by
  decide

/-! ## C1: the selection follows the item across a reorder -/

/-- Claim C1.  For a snapshot with pairwise distinct song ids in which the
remembered `selected_song_id` is the id of the song at position `p` (an id
that fits an `int`), and no range selection active, `RestoreSelection` ends
with the cursor on `p`, whatever the cursor was, and leaves `selected_song_id`
as it was. -/
theorem C1_selection_follows_reorder (playlist : MpdQueue) (q : QueuePage) (p id : Nat)
    (hnodup : playlist.Nodup)
    (hp : playlist[p]? = some id)
    (hid : (id : Int) = q.selected_song_id)
    (hfit : id < INT_LIMIT)
    (hrange : q.lw.range_selection = false) :
    (RestoreSelection playlist q).lw.selected = p ∧
      (RestoreSelection playlist q).selected_song_id = q.selected_song_id := by
  obtain ⟨hlt, hget⟩ := List.getElem?_eq_some_iff.mp hp
  have hu : unsigned_of_int q.selected_song_id = id := by
    rw [← hid]; apply unsigned_of_int_natCast; unfold INT_LIMIT at hfit; unfold UINT_SIZE; omega
  have hnn : ¬ q.selected_song_id < 0 := by rw [← hid]; omega
  have hn0 : playlist.length ≠ 0 := by omega
  have hfind := FindId_of_nodup playlist p id hnodup hp
  have hsel : (q.lw.SetLength playlist.length).selected < playlist.length := by
    simp only [ListWindow.SetLength, hn0, if_false]; split_ifs <;> omega
  have hrs : (q.lw.SetLength playlist.length).range_selection = false := by
    simp [ListWindow.SetLength, hrange]
  have hgs : GetSelectedSong playlist { q with lw := q.lw.SetLength playlist.length }
      = some (playlist[(q.lw.SetLength playlist.length).selected]) := by
    simp [GetSelectedSong, hrs, hsel]
  unfold RestoreSelection
  simp only [hnn, if_false, hu, hfind, hgs]
  by_cases hsame : playlist[(q.lw.SetLength playlist.length).selected] = id
  · simp only [hsame, decide_True, if_true]
    refine ⟨?_, trivial⟩
    apply (List.Nodup.getElem_inj_iff hnodup).mp
    rw [hsame, hget]
  · have hlen : p < (q.lw.SetLength playlist.length).length := by
      simpa [ListWindow.SetLength] using hlt
    simp [hsame, SaveSelection, GetSelectedSong, ListWindow.SetCursor_selected_of_lt, hlen,
      ListWindow.SetCursor_range_selection, hrs, hlt, hget, int_of_unsigned_of_lt, hfit, hid]

/-- Claim C1 at the spec's scenario: ids 10, 11, 12 with the cursor on row 1
(id 11); the new snapshot is 12, 10, 11; the cursor ends on row 2 and the
remembered id is still 11. -/
theorem C1_selection_follows_reorder_witness :
    (RestoreSelection [12, 10, 11] (pageWith (windowOver 3 1 false 0 false) 11 0 false)).lw.selected
      = 2 ∧
    (RestoreSelection [12, 10, 11]
      (pageWith (windowOver 3 1 false 0 false) 11 0 false)).selected_song_id = 11 :=
  C1_selection_follows_reorder [12, 10, 11] (pageWith (windowOver 3 1 false 0 false) 11 0 false)
    2 11 (by decide) (by decide) (by decide) (by decide) (by decide)

/-! ## C2: losing the remembered song degrades to the position -/

/-- Claim C2.  For a non-empty snapshot of length `n` that does not hold the
id the code looks for, `(unsigned)selected_song_id` with `selected_song_id`
not negative, `RestoreSelection` ends with the cursor where it was if that is
below `n`, and on `n - 1` otherwise; range selection or not. -/
theorem C2_selection_loss_degrades_positionally (playlist : MpdQueue) (q : QueuePage)
    (hne : playlist ≠ [])
    (hsid : 0 ≤ q.selected_song_id)
    (habs : unsigned_of_int q.selected_song_id ∉ playlist) :
    (RestoreSelection playlist q).lw.selected =
      if q.lw.selected < playlist.length then q.lw.selected else playlist.length - 1 := by
  have hn0 : playlist.length ≠ 0 := by
    intro h; exact hne (List.length_eq_zero.mp h)
  have hv : GetSelectedSong playlist { q with lw := q.lw.SetLength playlist.length }
      ≠ some (unsigned_of_int q.selected_song_id) :=
    fun e => habs (GetSelectedSong_mem _ _ _ e)
  rw [RestoreSelection_lost playlist q hsid hv (FindId_of_not_mem playlist _ habs)]
  simp [SaveSelection, ListWindow.SetLength, hn0]

/-- Claim C2 at the spec's scenario: cursor on row 3, remembered id 13 absent
from a new snapshot of length 5; the cursor stays on row 3. -/
theorem C2_selection_loss_degrades_positionally_witness :
    (RestoreSelection [20, 21, 22, 23, 24]
      (pageWith (windowOver 6 3 false 0 false) 13 0 false)).lw.selected = 3 :=
  (C2_selection_loss_degrades_positionally [20, 21, 22, 23, 24]
    (pageWith (windowOver 6 3 false 0 false) 13 0 false)
    (by decide) (by decide) (by decide)).trans (by decide)

/-! ## C3: the remembered identity after re-anchoring -/

/-- Claim C3 fails as stated: with no identity remembered
(`selected_song_id = -1`) `RestoreSelection` returns before `SaveSelection`;
over the snapshot 10, 11, 12 with the cursor on row 0 the field is still `-1`
afterwards while the song under the cursor has id 10. -/
theorem C3_no_identity_stays_unset :
    (pageWith (windowOver 3 0 false 0 false) (-1) 0 false).lw.range_selection = false ∧
    (RestoreSelection [10, 11, 12]
      (pageWith (windowOver 3 0 false 0 false) (-1) 0 false)).selected_song_id = -1 ∧
    [10, 11, 12][(RestoreSelection [10, 11, 12]
      (pageWith (windowOver 3 0 false 0 false) (-1) 0 false)).lw.selected]? = some 10 := by
  decide

/-- Claim C3, amended.  When an identity is remembered (`selected_song_id`
is a non-negative `int`), the snapshot is not empty and no range selection is
active, then after `RestoreSelection` there is a song under the cursor and
`selected_song_id` is its id converted to `int` as `SaveSelection` does; it is
the id itself whenever the id fits an `int`. -/
theorem C3_identity_refreshed_when_remembered (playlist : MpdQueue) (q : QueuePage)
    (hne : playlist ≠ [])
    (hsid : 0 ≤ q.selected_song_id)
    (hint : q.selected_song_id < INT_LIMIT)
    (hrange : q.lw.range_selection = false) :
    ∃ id, playlist[(RestoreSelection playlist q).lw.selected]? = some id ∧
      (RestoreSelection playlist q).selected_song_id = int_of_unsigned id ∧
      (id < INT_LIMIT → (RestoreSelection playlist q).selected_song_id = (id : Int)) := by
  have hn0 : playlist.length ≠ 0 := by
    intro h; exact hne (List.length_eq_zero.mp h)
  have hsel := SetLength_selected_lt q.lw playlist.length hn0
  have hrs : (q.lw.SetLength playlist.length).range_selection = false := by
    simp [ListWindow.SetLength, hrange]
  suffices h : ∃ id, playlist[(RestoreSelection playlist q).lw.selected]? = some id ∧
      (RestoreSelection playlist q).selected_song_id = int_of_unsigned id by
    obtain ⟨id, h1, h2⟩ := h
    exact ⟨id, h1, h2, fun hlt => by rw [h2, int_of_unsigned_of_lt id hlt]⟩
  by_cases hv : GetSelectedSong playlist { q with lw := q.lw.SetLength playlist.length }
      = some (unsigned_of_int q.selected_song_id)
  · rw [RestoreSelection_valid playlist q hsid hv]
    exact ⟨_, GetSelectedSong_getElem? _ _ _ hv, (int_of_unsigned_of_int _ hsid hint).symm⟩
  · rcases FindId_cases playlist (unsigned_of_int q.selected_song_id) with ⟨hf, _⟩ | ⟨p, hf, hp⟩
    · rw [RestoreSelection_lost playlist q hsid hv hf]
      refine ⟨playlist[(q.lw.SetLength playlist.length).selected], ?_, ?_⟩
      · rw [SaveSelection_lw]; exact List.getElem?_eq_getElem hsel
      · exact SaveSelection_of_cursor playlist _ hrs hsel
    · rw [RestoreSelection_found playlist q p hsid hv hf]
      obtain ⟨hlt, hget⟩ := List.getElem?_eq_some_iff.mp hp
      have hlen : p < (q.lw.SetLength playlist.length).length := by
        simpa [ListWindow.SetLength] using hlt
      have hsp := ListWindow.SetCursor_selected_of_lt _ p hlen
      have hrp : ((q.lw.SetLength playlist.length).SetCursor p).range_selection = false := by
        rw [ListWindow.SetCursor_range_selection]; exact hrs
      refine ⟨playlist[p], ?_, ?_⟩
      · rw [SaveSelection_lw]; simp only [hsp]; exact List.getElem?_eq_getElem hlt
      · rw [SaveSelection_of_cursor playlist _ hrp (by simp only [hsp]; exact hlt)]
        simp only [hsp]

/-- Claim C3, amended, at a concrete input: id 4 is remembered but gone from
the snapshot 10, 11, 12; the cursor stays on row 1 and the remembered id
becomes that of the song now there. -/
theorem C3_identity_refreshed_when_remembered_witness :
    ∃ id, [10, 11, 12][(RestoreSelection [10, 11, 12]
        (pageWith (windowOver 3 1 false 0 false) 4 0 false)).lw.selected]? = some id ∧
      (RestoreSelection [10, 11, 12]
        (pageWith (windowOver 3 1 false 0 false) 4 0 false)).selected_song_id
          = int_of_unsigned id ∧
      (id < INT_LIMIT →
        (RestoreSelection [10, 11, 12]
          (pageWith (windowOver 3 1 false 0 false) 4 0 false)).selected_song_id = (id : Int)) :=
  C3_identity_refreshed_when_remembered [10, 11, 12]
    (pageWith (windowOver 3 1 false 0 false) 4 0 false)
    (by decide) (by decide) (by decide) (by decide)

/-! ## C4: re-anchoring is idempotent -/

/-- Claim C4.  For every page state and every snapshot of `unsigned` song
ids, running `RestoreSelection` a second time against the same snapshot
changes nothing: the whole page, so in particular the cursor and
`selected_song_id`, is as the first run left it. -/
theorem C4_restore_selection_idempotent (playlist : MpdQueue) (q : QueuePage)
    (hids : ∀ id ∈ playlist, id < UINT_SIZE) :
    RestoreSelection playlist (RestoreSelection playlist q) = RestoreSelection playlist q := by
  by_cases hneg : q.selected_song_id < 0
  · rw [RestoreSelection_none playlist q hneg]
    exact RestoreSelection_fixed playlist _ (SetLength_SetLength _ _) (Or.inl hneg)
  · have hsid : 0 ≤ q.selected_song_id := by omega
    by_cases hv : GetSelectedSong playlist { q with lw := q.lw.SetLength playlist.length }
        = some (unsigned_of_int q.selected_song_id)
    · rw [RestoreSelection_valid playlist q hsid hv]
      exact RestoreSelection_fixed playlist _ (SetLength_SetLength _ _) (Or.inr hv)
    · rcases FindId_cases playlist (unsigned_of_int q.selected_song_id) with ⟨hf, _⟩ | ⟨p, hf, _⟩
      · rw [RestoreSelection_lost playlist q hsid hv hf]
        exact RestoreSelection_fixed playlist _ (SetLength_SetLength _ _)
          (SaveSelection_settled playlist _ hids)
      · rw [RestoreSelection_found playlist q p hsid hv hf]
        exact RestoreSelection_fixed playlist _ (SetLength_SetCursor _ _ _)
          (SaveSelection_settled playlist _ hids)

/-- Claim C4 at a concrete input: a range selection whose anchor is out of
bounds, cursor beyond the end, id 11 remembered, snapshot 12, 10, 11. -/
theorem C4_restore_selection_idempotent_witness :
    RestoreSelection [12, 10, 11]
        (RestoreSelection [12, 10, 11] (pageWith (windowOver 9 7 true 8 false) 11 0 false))
      = RestoreSelection [12, 10, 11] (pageWith (windowOver 9 7 true 8 false) 11 0 false) :=
  C4_restore_selection_idempotent [12, 10, 11]
    (pageWith (windowOver 9 7 true 8 false) 11 0 false) (by decide)

/-! ## C5: when `Update` marks the view dirty -/

/-- Claim C5.  After `Update` the view is dirty exactly when it was dirty
before, or the `MPD_IDLE_QUEUE` bit is set, or the `MPD_IDLE_PLAYER` bit is
set and `get_current_song_id` of the status differs from the recorded
`current_song_id`.  With the `MPD_IDLE_QUEUE` bit set `RestoreSelection` has
run: `selected_song_id` is what it leaves, and so is the list window unless a
song change recentres it afterwards.  This holds whatever `FetchCursor` does. -/
theorem C5_update_dirty_policy (options : Options) (FetchCursor : ListWindow → ListWindow)
    (c : mpdclient) (events : Nat) (q : QueuePage) :
    ((Update options FetchCursor c events q).dirty = true ↔
      (q.dirty = true ∨ events &&& MPD_IDLE_QUEUE ≠ 0 ∨
        (events &&& MPD_IDLE_PLAYER ≠ 0 ∧
          get_current_song_id c.status ≠ q.current_song_id))) ∧
    (events &&& MPD_IDLE_QUEUE ≠ 0 →
      (Update options FetchCursor c events q).selected_song_id =
        (RestoreSelection c.playlist q).selected_song_id ∧
      ((events &&& MPD_IDLE_PLAYER = 0 ∨
          get_current_song_id c.status = q.current_song_id) →
        (Update options FetchCursor c events q).lw = (RestoreSelection c.playlist q).lw)) := by
  obtain ⟨q2, hq2, hlw, hsid, hcur, hdirty⟩ : ∃ q2 : QueuePage,
      Update options FetchCursor c events q =
        (if ((if events &&& MPD_IDLE_PLAYER ≠ 0 then
              OnSongChange options FetchCursor c.status
                (if events &&& MPD_IDLE_QUEUE ≠ 0 then RestoreSelection c.playlist q2
                  else { q2 with lw := q2.lw.SetLength c.playlist.length })
            else (false, (if events &&& MPD_IDLE_QUEUE ≠ 0 then RestoreSelection c.playlist q2
                  else { q2 with lw := q2.lw.SetLength c.playlist.length }))).1
            || decide (events &&& MPD_IDLE_QUEUE ≠ 0)) = true then
          SetDirty (if events &&& MPD_IDLE_PLAYER ≠ 0 then
              OnSongChange options FetchCursor c.status
                (if events &&& MPD_IDLE_QUEUE ≠ 0 then RestoreSelection c.playlist q2
                  else { q2 with lw := q2.lw.SetLength c.playlist.length })
            else (false, (if events &&& MPD_IDLE_QUEUE ≠ 0 then RestoreSelection c.playlist q2
                  else { q2 with lw := q2.lw.SetLength c.playlist.length }))).2
        else (if events &&& MPD_IDLE_PLAYER ≠ 0 then
              OnSongChange options FetchCursor c.status
                (if events &&& MPD_IDLE_QUEUE ≠ 0 then RestoreSelection c.playlist q2
                  else { q2 with lw := q2.lw.SetLength c.playlist.length })
            else (false, (if events &&& MPD_IDLE_QUEUE ≠ 0 then RestoreSelection c.playlist q2
                  else { q2 with lw := q2.lw.SetLength c.playlist.length }))).2) ∧
      q2.lw = q.lw ∧ q2.selected_song_id = q.selected_song_id ∧
      q2.current_song_id = q.current_song_id ∧ q2.dirty = q.dirty := by
    refine ⟨_, rfl, ?_, ?_, ?_, ?_⟩ <;> (split_ifs <;> rfl)
  rw [hq2]
  have hc := RestoreSelection_congr c.playlist q2 q hlw hsid
  by_cases hQ : events &&& MPD_IDLE_QUEUE ≠ 0 <;> by_cases hP : events &&& MPD_IDLE_PLAYER ≠ 0 <;>
    by_cases hS : get_current_song_id c.status = q.current_song_id <;>
    simp [hQ, hP, hS, SetDirty, OnSongChange_fst, OnSongChange_dirty,
      OnSongChange_selected_song_id, OnSongChange_same, RestoreSelection_current_song_id,
      RestoreSelection_dirty, hc.1, hc.2, hcur, hdirty]

/-! ## C7: moves at the boundary -/

/-- Claim C7.  When the base class declines the command, `CMD_LIST_MOVE_UP`
with a range that starts at 0 or is empty, and `CMD_LIST_MOVE_DOWN` with a
range whose end is not below the queue length, return false, make no
collaborator call (so no `mpdclient_cmd_move`), leave the client alone, and
leave the cursor, the range anchor and `selected_song_id` unchanged. -/
theorem C7_boundary_moves_rejected (env : Collaborators) (cmd : command_t) (w : World)
    (hbase : env.ListPage_OnCommand { w.page.lw with hide_cursor := false } w.page.dirty cmd
      = none)
    (hedge : (cmd = command_t.CMD_LIST_MOVE_UP ∧
        (w.page.lw.GetRange.start_index = 0 ∨ w.page.lw.GetRange.empty = true)) ∨
      (cmd = command_t.CMD_LIST_MOVE_DOWN ∧
        w.c.playlist.length ≤ w.page.lw.GetRange.end_index)) :
    (OnCommand env cmd w).1 = false ∧
    (OnCommand env cmd w).2.calls = w.calls ∧
    (OnCommand env cmd w).2.c = w.c ∧
    (OnCommand env cmd w).2.page.lw.selected = w.page.lw.selected ∧
    (OnCommand env cmd w).2.page.lw.range_base = w.page.lw.range_base ∧
    (OnCommand env cmd w).2.page.selected_song_id = w.page.selected_song_id := by
  have hmove : cmd = command_t.CMD_LIST_MOVE_UP ∨ cmd = command_t.CMD_LIST_MOVE_DOWN := by
    rcases hedge with ⟨h, _⟩ | ⟨h, _⟩
    · exact Or.inl h
    · exact Or.inr h
  have hres : OnCommand env cmd w = (false, OnCommand_prologue env cmd w) := by
    rw [OnCommand_move env cmd w hmove hbase]
    by_cases hconn : w.c.connected = true
    · rcases hedge with ⟨h, hr⟩ | ⟨h, hr⟩
      · subst h
        simp [hconn, OnCommand_second, OnCommand_prologue_lw, GetRange_hide_cursor, hr]
      · subst h
        simp [hconn, OnCommand_second, OnCommand_prologue_lw, GetRange_hide_cursor, hr,
          OnCommand_prologue_c]
    · simp [hconn]
  rw [hres]
  simp [OnCommand_prologue_lw, OnCommand_prologue_calls, OnCommand_prologue_c,
    OnCommand_prologue_selected_song_id]

/-- Claim C7 at a concrete input: moving the first row of 10, 11, 12 up. -/
theorem C7_boundary_moves_rejected_witness :
    (OnCommand (scriptedCollaborators true) command_t.CMD_LIST_MOVE_UP
      (worldWith (pageWith (windowOver 3 0 false 0 false) 10 0 false) [10, 11, 12])).1 = false ∧
    (OnCommand (scriptedCollaborators true) command_t.CMD_LIST_MOVE_UP
      (worldWith (pageWith (windowOver 3 0 false 0 false) 10 0 false) [10, 11, 12])).2.calls
      = [] ∧
    (OnCommand (scriptedCollaborators true) command_t.CMD_LIST_MOVE_UP
      (worldWith (pageWith (windowOver 3 0 false 0 false) 10 0 false) [10, 11, 12])).2.c
      = (worldWith (pageWith (windowOver 3 0 false 0 false) 10 0 false) [10, 11, 12]).c ∧
    (OnCommand (scriptedCollaborators true) command_t.CMD_LIST_MOVE_UP
      (worldWith (pageWith (windowOver 3 0 false 0 false) 10 0 false)
        [10, 11, 12])).2.page.lw.selected = 0 ∧
    (OnCommand (scriptedCollaborators true) command_t.CMD_LIST_MOVE_UP
      (worldWith (pageWith (windowOver 3 0 false 0 false) 10 0 false)
        [10, 11, 12])).2.page.lw.range_base = 0 ∧
    (OnCommand (scriptedCollaborators true) command_t.CMD_LIST_MOVE_UP
      (worldWith (pageWith (windowOver 3 0 false 0 false) 10 0 false)
        [10, 11, 12])).2.page.selected_song_id = 10 :=
  C7_boundary_moves_rejected (scriptedCollaborators true) command_t.CMD_LIST_MOVE_UP
    (worldWith (pageWith (windowOver 3 0 false 0 false) 10 0 false) [10, 11, 12])
    rfl (Or.inl ⟨rfl, Or.inl (by decide)⟩)

/-! ## C8: the local shift on a row move -/

/-- Claim C8 fails as stated: with no range selection active the anchor is
decremented all the same; from cursor 1 and anchor 0 over 10, 11, 12 a
successful `CMD_LIST_MOVE_UP` leaves the cursor on 0 and the anchor wrapped
around to 4294967295, which is no index of the queue. -/
theorem C8_idle_anchor_wraps_on_move_up :
    (worldWith (pageWith (windowOver 3 1 false 0 false) 11 0 false) [10, 11, 12]).page.lw.GetRange
      = { start_index := 1, end_index := 2 } ∧
    (OnCommand (scriptedCollaborators true) command_t.CMD_LIST_MOVE_UP
      (worldWith (pageWith (windowOver 3 1 false 0 false) 11 0 false) [10, 11, 12])).1 = true ∧
    (OnCommand (scriptedCollaborators true) command_t.CMD_LIST_MOVE_UP
      (worldWith (pageWith (windowOver 3 1 false 0 false) 11 0 false) [10, 11, 12])).2.calls
      = [Call.mpdclient_cmd_move 1 0] ∧
    (OnCommand (scriptedCollaborators true) command_t.CMD_LIST_MOVE_UP
      (worldWith (pageWith (windowOver 3 1 false 0 false) 11 0 false)
        [10, 11, 12])).2.page.lw.selected = 0 ∧
    (worldWith (pageWith (windowOver 3 1 false 0 false) 11 0 false)
      [10, 11, 12]).page.lw.range_base = 0 ∧
    (OnCommand (scriptedCollaborators true) command_t.CMD_LIST_MOVE_UP
      (worldWith (pageWith (windowOver 3 1 false 0 false) 11 0 false)
        [10, 11, 12])).2.page.lw.range_base = 4294967295 := by
  decide

/-- Claim C8, amended.  Take a connected state whose list window is in step
with the queue (same length, at most `2 ^ 32` rows, cursor inside, and the
anchor inside when a range selection is active).  For a range that is not at
the boundary, a `CMD_LIST_MOVE_UP` (resp. `CMD_LIST_MOVE_DOWN`) that the base
class declines returns true and makes the one `mpdclient_cmd_move` call.  If that call fails, the cursor, the anchor and
`selected_song_id` are unchanged.  If it succeeds, the cursor is exactly one
less (resp. one more) and still an index of the queue, and the anchor is
decremented (resp. incremented) as an `unsigned`; when a range selection is
active that too is exactly one less (resp. one more) and an index of the
queue. -/
theorem C8_row_move_local_shift (env : Collaborators) (w : World)
    (hconn : w.c.connected = true)
    (hsize : w.c.playlist.length ≤ UINT_SIZE)
    (hlen : w.page.lw.length = w.c.playlist.length)
    (hsel : w.page.lw.selected < w.page.lw.length)
    (hanchor : w.page.lw.range_selection = true → w.page.lw.range_base < w.page.lw.length) :
    ((env.ListPage_OnCommand { w.page.lw with hide_cursor := false } w.page.dirty
          command_t.CMD_LIST_MOVE_UP = none ∧
        w.page.lw.GetRange.start_index ≠ 0 ∧ w.page.lw.GetRange.empty = false) →
      (OnCommand env command_t.CMD_LIST_MOVE_UP w).1 = true ∧
      (OnCommand env command_t.CMD_LIST_MOVE_UP w).2.calls = w.calls ++
        [Call.mpdclient_cmd_move (unsigned_dec w.page.lw.GetRange.end_index)
          (unsigned_dec w.page.lw.GetRange.start_index)] ∧
      ((env.mpdclient_cmd_move w.c (unsigned_dec w.page.lw.GetRange.end_index)
          (unsigned_dec w.page.lw.GetRange.start_index)).1 = false →
        (OnCommand env command_t.CMD_LIST_MOVE_UP w).2.page.lw.selected = w.page.lw.selected ∧
        (OnCommand env command_t.CMD_LIST_MOVE_UP w).2.page.lw.range_base
          = w.page.lw.range_base ∧
        (OnCommand env command_t.CMD_LIST_MOVE_UP w).2.page.selected_song_id
          = w.page.selected_song_id) ∧
      ((env.mpdclient_cmd_move w.c (unsigned_dec w.page.lw.GetRange.end_index)
          (unsigned_dec w.page.lw.GetRange.start_index)).1 = true →
        (OnCommand env command_t.CMD_LIST_MOVE_UP w).2.page.lw.selected + 1
          = w.page.lw.selected ∧
        (OnCommand env command_t.CMD_LIST_MOVE_UP w).2.page.lw.selected < w.c.playlist.length ∧
        (OnCommand env command_t.CMD_LIST_MOVE_UP w).2.page.lw.range_base
          = unsigned_dec w.page.lw.range_base ∧
        (w.page.lw.range_selection = true →
          (OnCommand env command_t.CMD_LIST_MOVE_UP w).2.page.lw.range_base + 1
            = w.page.lw.range_base ∧
          (OnCommand env command_t.CMD_LIST_MOVE_UP w).2.page.lw.range_base
            < w.c.playlist.length))) ∧
    ((env.ListPage_OnCommand { w.page.lw with hide_cursor := false } w.page.dirty
          command_t.CMD_LIST_MOVE_DOWN = none ∧
        w.page.lw.GetRange.end_index < w.c.playlist.length) →
      (OnCommand env command_t.CMD_LIST_MOVE_DOWN w).1 = true ∧
      (OnCommand env command_t.CMD_LIST_MOVE_DOWN w).2.calls = w.calls ++
        [Call.mpdclient_cmd_move w.page.lw.GetRange.start_index
          w.page.lw.GetRange.end_index] ∧
      ((env.mpdclient_cmd_move w.c w.page.lw.GetRange.start_index
          w.page.lw.GetRange.end_index).1 = false →
        (OnCommand env command_t.CMD_LIST_MOVE_DOWN w).2.page.lw.selected
          = w.page.lw.selected ∧
        (OnCommand env command_t.CMD_LIST_MOVE_DOWN w).2.page.lw.range_base
          = w.page.lw.range_base ∧
        (OnCommand env command_t.CMD_LIST_MOVE_DOWN w).2.page.selected_song_id
          = w.page.selected_song_id) ∧
      ((env.mpdclient_cmd_move w.c w.page.lw.GetRange.start_index
          w.page.lw.GetRange.end_index).1 = true →
        (OnCommand env command_t.CMD_LIST_MOVE_DOWN w).2.page.lw.selected
          = w.page.lw.selected + 1 ∧
        (OnCommand env command_t.CMD_LIST_MOVE_DOWN w).2.page.lw.selected
          < w.c.playlist.length ∧
        (OnCommand env command_t.CMD_LIST_MOVE_DOWN w).2.page.lw.range_base
          = unsigned_inc w.page.lw.range_base ∧
        (w.page.lw.range_selection = true →
          (OnCommand env command_t.CMD_LIST_MOVE_DOWN w).2.page.lw.range_base
            = w.page.lw.range_base + 1 ∧
          (OnCommand env command_t.CMD_LIST_MOVE_DOWN w).2.page.lw.range_base
            < w.c.playlist.length))) := by
  have hl0 : w.page.lw.length ≠ 0 := by omega
  constructor
  · rintro ⟨hup, hs, he⟩
    have hguard : ¬ (w.page.lw.GetRange.start_index = 0 ∨ w.page.lw.GetRange.empty = true) := by
      simp [hs, he]
    rw [OnCommand_move env _ w (Or.inl rfl) hup]
    simp only [hconn, Bool.not_true, Bool.false_eq_true, if_false, OnCommand_second,
      OnCommand_prologue_lw, GetRange_hide_cursor, hguard, OnCommand_prologue_c,
      OnCommand_prologue_calls]
    obtain ⟨hs0, hb0⟩ := GetRange_start_ne_zero w.page.lw hl0 hs
    cases hr : (env.mpdclient_cmd_move w.c (unsigned_dec w.page.lw.GetRange.end_index)
        (unsigned_dec w.page.lw.GetRange.start_index)).1
    · simp [OnCommand_prologue_lw, OnCommand_prologue_selected_song_id]
    · simp only [Bool.not_true, Bool.false_eq_true, if_false, SaveSelection_lw,
        ListWindow.ScrollTo_selected, ListWindow.ScrollTo_range_base, ScrollTo_if_selected,
        ScrollTo_if_range_base, true_and, false_implies, implies_true, and_true, true_implies]
      have e1 := unsigned_dec_exact w.page.lw.selected hs0 (by omega)
      refine ⟨fun h => Bool.noConfusion h, e1, by omega, fun hrs => ?_⟩
      have e2 := unsigned_dec_exact w.page.lw.range_base (hb0 hrs) (by have := hanchor hrs; omega)
      exact ⟨e2, by have := hanchor hrs; omega⟩
  · rintro ⟨hdown, he⟩
    have hguard : ¬ (w.c.playlist.length ≤ w.page.lw.GetRange.end_index) := by omega
    rw [OnCommand_move env _ w (Or.inr rfl) hdown]
    simp only [hconn, Bool.not_true, Bool.false_eq_true, if_false, OnCommand_second,
      OnCommand_prologue_lw, GetRange_hide_cursor, hguard, OnCommand_prologue_c,
      OnCommand_prologue_calls]
    obtain ⟨hs1, hb1⟩ := GetRange_end_lt w.page.lw _ hl0 he
    cases hr : (env.mpdclient_cmd_move w.c w.page.lw.GetRange.start_index
        w.page.lw.GetRange.end_index).1
    · simp [OnCommand_prologue_lw, OnCommand_prologue_selected_song_id]
    · simp only [Bool.not_true, Bool.false_eq_true, if_false, SaveSelection_lw,
        ListWindow.ScrollTo_selected, ListWindow.ScrollTo_range_base, ScrollTo_if_selected,
        ScrollTo_if_range_base, true_and, false_implies, implies_true, and_true, true_implies]
      have e1 := unsigned_inc_exact w.page.lw.selected (by omega)
      refine ⟨fun h => Bool.noConfusion h, e1, by omega, fun hrs => ?_⟩
      have e2 := unsigned_inc_exact w.page.lw.range_base (by have := hb1 hrs; omega)
      exact ⟨e2, by have := hb1 hrs; omega⟩

/-- Claim C8, amended, at a concrete input: a range selection on row 1 of
10, 11, 12 and a transport that succeeds; moving up leaves cursor and anchor
on a row one above, moving down on a row one below. -/
theorem C8_row_move_local_shift_witness :
    ((OnCommand (scriptedCollaborators true) command_t.CMD_LIST_MOVE_UP
        (worldWith (pageWith (windowOver 3 1 true 1 false) 11 0 false)
          [10, 11, 12])).2.page.lw.selected + 1 = 1 ∧
      (OnCommand (scriptedCollaborators true) command_t.CMD_LIST_MOVE_UP
        (worldWith (pageWith (windowOver 3 1 true 1 false) 11 0 false)
          [10, 11, 12])).2.page.lw.range_base + 1 = 1) ∧
    ((OnCommand (scriptedCollaborators true) command_t.CMD_LIST_MOVE_DOWN
        (worldWith (pageWith (windowOver 3 1 true 1 false) 11 0 false)
          [10, 11, 12])).2.page.lw.selected = 1 + 1 ∧
      (OnCommand (scriptedCollaborators true) command_t.CMD_LIST_MOVE_DOWN
        (worldWith (pageWith (windowOver 3 1 true 1 false) 11 0 false)
          [10, 11, 12])).2.page.lw.range_base = 1 + 1) :=
  have h := C8_row_move_local_shift (scriptedCollaborators true)
    (worldWith (pageWith (windowOver 3 1 true 1 false) 11 0 false) [10, 11, 12])
    rfl (by decide) rfl (by decide) (fun _ => by decide)
  have hu := (h.1 ⟨rfl, by decide, by decide⟩).2.2.2 rfl
  have hd := (h.2 ⟨rfl, by decide⟩).2.2.2 rfl
  ⟨⟨hu.1, (hu.2.2.2 rfl).1⟩, ⟨hd.1, (hd.2.2.2 rfl).1⟩⟩

/-! ## C9: the hide-cursor timer fires -/

/-- Claim C9.  With `options.hide_cursor` positive and a timer pending,
`OnHideCursorTimer` returns false.  When the playing flag is set it leaves
`lw.hide_cursor` set, no timer id, and the main context untouched (nothing is
scheduled).  When the flag is clear it leaves `lw.hide_cursor` as it was and
a non-zero timer id, that of the one source it has just attached. -/
theorem C9_hide_cursor_timer_fires (options : Options) (w : World)
    (hopt : 0 < options.hide_cursor)
    (hid : w.page.timer_hide_cursor_id ≠ 0) :
    ∃ w1, OnHideCursorTimer options w = some (false, w1) ∧
      (w.page.playing = true →
        w1.page.lw.hide_cursor = true ∧ w1.page.timer_hide_cursor_id = 0 ∧
        w1.main = w.main) ∧
      (w.page.playing = false →
        w1.page.lw.hide_cursor = w.page.lw.hide_cursor ∧
        w1.page.timer_hide_cursor_id ≠ 0 ∧
        w1.main.sources = w.main.sources ++ [w1.page.timer_hide_cursor_id]) := by
  unfold OnHideCursorTimer
  cases hp : w.page.playing <;>
    simp [hopt, hid, hp, g_timeout_add_seconds]

/-- Claim C9 at a concrete input: timer 7 fires while playing. -/
theorem C9_hide_cursor_timer_fires_witness :
    ∃ w1, OnHideCursorTimer { hide_cursor := 5, auto_center := true }
        (worldWith (pageWith (windowOver 3 1 false 0 false) 11 7 true) [10, 11, 12])
          = some (false, w1) ∧
      ((worldWith (pageWith (windowOver 3 1 false 0 false) 11 7 true)
          [10, 11, 12]).page.playing = true →
        w1.page.lw.hide_cursor = true ∧ w1.page.timer_hide_cursor_id = 0 ∧
        w1.main = (worldWith (pageWith (windowOver 3 1 false 0 false) 11 7 true)
          [10, 11, 12]).main) ∧
      ((worldWith (pageWith (windowOver 3 1 false 0 false) 11 7 true)
          [10, 11, 12]).page.playing = false →
        w1.page.lw.hide_cursor = (worldWith (pageWith (windowOver 3 1 false 0 false) 11 7 true)
          [10, 11, 12]).page.lw.hide_cursor ∧
        w1.page.timer_hide_cursor_id ≠ 0 ∧
        w1.main.sources = (worldWith (pageWith (windowOver 3 1 false 0 false) 11 7 true)
          [10, 11, 12]).main.sources ++ [w1.page.timer_hide_cursor_id]) :=
  C9_hide_cursor_timer_fires { hide_cursor := 5, auto_center := true }
    (worldWith (pageWith (windowOver 3 1 false 0 false) 11 7 true) [10, 11, 12])
    (by decide) (by decide)

/-! ## C10: every command shows the cursor and restarts the timer -/

theorem Step_max_offset (m : BasicMarquee) : m.Step.max_offset = m.max_offset := by
  unfold BasicMarquee.Step
  simp only []
  split_ifs <;> rfl

theorem Step_iterate_max_offset (m : BasicMarquee) (k : Nat) :
    (BasicMarquee.Step^[k] m).max_offset = m.max_offset := by
  induction k with
  | zero => rfl
  | succ n ih => rw [Function.iterate_succ_apply', Step_max_offset, ih]

/-- One step from an offset that is neither the last before `max_offset` nor the
last an `unsigned` holds moves it up by one. -/
theorem Step_offset_of_lt (m : BasicMarquee) (h1 : m.offset + 1 < m.max_offset)
    (h2 : m.offset + 1 < UINT_SIZE) : m.Step.offset = m.offset + 1 := by
  have hinc : unsigned_inc m.offset = m.offset + 1 := by
    unfold unsigned_inc; exact Nat.mod_eq_of_lt h2
  unfold BasicMarquee.Step
  simp only [hinc]
  rw [if_neg (by omega)]

/-- While fewer steps than `max_offset` and than two to the thirty-second have
been made since `Rewind`, the offset is the number of steps. -/
theorem Step_iterate_offset (m : BasicMarquee) (k : Nat) (h1 : k < m.max_offset)
    (h2 : k < UINT_SIZE) : (BasicMarquee.Step^[k] m.Rewind).offset = k := by
  induction k with
  | zero => rfl
  | succ n ih =>
    have ihn := ih (by omega) (by omega)
    have hmax : (BasicMarquee.Step^[n] m.Rewind).max_offset = m.max_offset := by
      rw [Step_iterate_max_offset]; rfl
    rw [Function.iterate_succ_apply', Step_offset_of_lt _ (by rw [ihn, hmax]; exact h1)
      (by rw [ihn]; exact h2), ihn]

/-- The step from the last offset before `max_offset` leads to offset zero. -/
theorem Step_offset_reset (m : BasicMarquee) (h1 : m.max_offset ≤ m.offset + 1)
    (h2 : m.offset + 1 < UINT_SIZE) : m.Step.offset = 0 := by
  have hinc : unsigned_inc m.offset = m.offset + 1 := by
    unfold unsigned_inc; exact Nat.mod_eq_of_lt h2
  unfold BasicMarquee.Step
  simp only [hinc]
  rw [if_pos h1]

/-- The step from the last offset an `unsigned` holds leads to offset zero,
whatever `max_offset` is. -/
theorem Step_offset_overflow (m : BasicMarquee) (h : m.offset + 1 = UINT_SIZE) :
    m.Step.offset = 0 := by
  have hinc : unsigned_inc m.offset = 0 := by
    unfold unsigned_inc; rw [h]; exact Nat.mod_self _
  unfold BasicMarquee.Step
  simp only [hinc]
  split_ifs <;> rfl

/-- With `max_offset` between one and two to the thirty-second, the offset
after `k` steps from `Rewind` is `k` modulo `max_offset`. -/
theorem Step_iterate_offset_mod (m : BasicMarquee) (h1 : 1 ≤ m.max_offset)
    (h2 : m.max_offset ≤ UINT_SIZE) (k : Nat) :
    (BasicMarquee.Step^[k] m.Rewind).offset = k % m.max_offset := by
  induction k with
  | zero => simp [BasicMarquee.Rewind]
  | succ n ih =>
    have hmax : (BasicMarquee.Step^[n] m.Rewind).max_offset = m.max_offset := by
      rw [Step_iterate_max_offset]; rfl
    have hlt : n % m.max_offset < m.max_offset := Nat.mod_lt _ (by omega)
    rw [Function.iterate_succ_apply', Nat.add_mod]
    by_cases hlast : n % m.max_offset + 1 = m.max_offset
    · have h1m : 1 % m.max_offset + n % m.max_offset = m.max_offset ∨ m.max_offset = 1 := by
        by_cases hone : m.max_offset = 1
        · exact Or.inr hone
        · left; rw [Nat.mod_eq_of_lt (by omega)]; omega
      have hz : (n % m.max_offset + 1 % m.max_offset) % m.max_offset = 0 := by
        rcases h1m with h | h
        · rw [Nat.add_comm, h, Nat.mod_self]
        · rw [h]; exact Nat.mod_one _
      rw [hz]
      by_cases hov : n % m.max_offset + 1 = UINT_SIZE
      · exact Step_offset_overflow _ (by rw [ih]; exact hov)
      · exact Step_offset_reset _ (by rw [ih, hmax]; omega) (by rw [ih]; omega)
    · have hone : 1 % m.max_offset = 1 := Nat.mod_eq_of_lt (by omega)
      rw [hone, Nat.mod_eq_of_lt (by omega)]
      rw [Step_offset_of_lt _ (by rw [ih, hmax]; omega) (by rw [ih]; omega), ih]

/-- The step that would bring the offset to two to the thirty-second brings it
to zero instead, when `max_offset` lies beyond. -/
theorem Step_iterate_overflow (m : BasicMarquee) (n : Nat) (hn : n + 1 = UINT_SIZE)
    (h : n < m.max_offset) : (BasicMarquee.Step^[n + 1] m.Rewind).offset = 0 := by
  rw [Function.iterate_succ_apply']
  exact Step_offset_overflow _ (by rw [Step_iterate_offset m n h (by omega)]; exact hn)

/-- After that wrap the count starts again from zero. -/
theorem Step_iterate_after_overflow (m : BasicMarquee) (n : Nat) (hn : n + 1 = UINT_SIZE)
    (h : n < m.max_offset) (h1 : 1 < m.max_offset) :
    (BasicMarquee.Step^[n + 1 + 1] m.Rewind).offset = 1 := by
  have h0 := Step_iterate_overflow m n hn h
  have hmax : (BasicMarquee.Step^[n + 1] m.Rewind).max_offset = m.max_offset := by
    rw [Step_iterate_max_offset]; rfl
  rw [Function.iterate_succ_apply', Step_offset_of_lt _ (by rw [h0, hmax]; exact h1)
    (by rw [h0]; unfold UINT_SIZE; omega), h0]

/-! ## C11: stepping the marquee is cyclic -/

/-- Claim C11 fails as stated: `offset` is an `unsigned` while `max_offset`
is a `size_t`.  With `max_offset` two to the thirty-second plus one, the step
that would bring the offset to 4294967296, a number of steps still below
`max_offset`, wraps it to 0, and after `max_offset` steps the offset is 1. -/
theorem C11_offset_wraps_before_oversize_max_offset :
    oversizeMarquee.max_offset = 4294967297 ∧
    (BasicMarquee.Step^[4294967296] oversizeMarquee.Rewind).offset = 0 ∧
    (BasicMarquee.Step^[4294967297] oversizeMarquee.Rewind).offset = 1 :=
  ⟨rfl,
   Step_iterate_overflow oversizeMarquee 4294967295 rfl (by decide),
   Step_iterate_after_overflow oversizeMarquee 4294967295 rfl (by decide) (by decide)⟩

/-- Claim C11, amended.  For every `max_offset` from one up to two to the
thirty-second, the number of values of the `unsigned` offset: starting from
`Rewind`, `max_offset` calls of `Step` bring the offset back to 0; after a
smaller number `k` of calls the offset is `k`; so the offset stays below
`max_offset` however many calls are made, and `max_offset` further calls
always lead back to the same offset. -/
theorem C11_step_cycles_with_period_max_offset (m : BasicMarquee) (h1 : 1 ≤ m.max_offset) (h2 : m.max_offset ≤ UINT_SIZE) :
    (BasicMarquee.Step^[m.max_offset] m.Rewind).offset = 0 ∧
    (∀ k, k < m.max_offset → (BasicMarquee.Step^[k] m.Rewind).offset = k) ∧
    (∀ k, (BasicMarquee.Step^[k] m.Rewind).offset < m.max_offset) ∧
    (∀ k, (BasicMarquee.Step^[k + m.max_offset] m.Rewind).offset
      = (BasicMarquee.Step^[k] m.Rewind).offset) := by
  refine ⟨?_, ?_, ?_, ?_⟩
  · rw [Step_iterate_offset_mod m h1 h2, Nat.mod_self]
  · intro k hk
    rw [Step_iterate_offset_mod m h1 h2, Nat.mod_eq_of_lt hk]
  · intro k
    rw [Step_iterate_offset_mod m h1 h2]
    exact Nat.mod_lt _ (by omega)
  · intro k
    rw [Step_iterate_offset_mod m h1 h2, Step_iterate_offset_mod m h1 h2, Nat.add_mod_right]

/-- Claim C11, amended, at the spec's scenario: "Hello World" and a
one-character separator give `max_offset` 12, and twelve calls of `Step` lead
back to offset 0. -/
theorem C11_step_cycles_with_period_max_offset_witness :
    (BasicMarquee.Step^[12] helloWorldMarquee.Rewind).offset = 0 ∧
    (∀ k, k < 12 → (BasicMarquee.Step^[k] helloWorldMarquee.Rewind).offset = k) ∧
    (∀ k, (BasicMarquee.Step^[k] helloWorldMarquee.Rewind).offset < 12) ∧
    (∀ k, (BasicMarquee.Step^[k + 12] helloWorldMarquee.Rewind).offset
      = (BasicMarquee.Step^[k] helloWorldMarquee.Rewind).offset) :=
  C11_step_cycles_with_period_max_offset helloWorldMarquee (by decide) (by decide)

end Ncmpc
